import Mathlib

/-!
# Magpie runtime orchestrator: a shallow embedding of `src/Runtime/MagApp.cpp`

The C++ class `MagApp` is embedded as explicit state passing.

* `MagApp` holds the data members the source file reads and writes.
* `World` adds what the operating system keeps for the process: the live
  windows, the quit flag of the thread's message queue, the shared `MagSettings`
  objects with their reference counts, the suspended cursor restorations, and a
  log of the externally visible calls (`Event`).
* `Env` collects the answers of the external collaborators and of Win32 for one
  `Run` call (what `Initialize()` returns, which handle `CreateWindowEx` returns,
  the monitor layout, the frame counter).

Machine integers are `Nat`/`Int`; the 32-bit counter `_nextWndProcHandlerID`
wraps with an explicit `% 2 ^ 32`, and `LONG` arithmetic wraps to 32 bits.
Calls to `Logger` only write to the log sink and are left out, as are
`ToggleOverlay` and `GetWICImageFactory`, which no property below involves.
Handlers are functions of the message; a null dereference is the result `none`
or `crashed`.
-/

namespace Magpie

/-! ## Win32 constants and plain data -/

/-- Message identifier `WM_DESTROY`. -/
def WM_DESTROY : Nat := 0x0002

/-- Message identifier `WM_QUIT`. -/
def WM_QUIT : Nat := 0x0012

/-- Message identifier `WM_KEYDOWN`. -/
def WM_KEYDOWN : Nat := 0x0100

/-- Hook code `HC_ACTION`. -/
def HC_ACTION : Int := 0

/-- Virtual key code of the print-screen key, `VK_SNAPSHOT`. -/
def VK_SNAPSHOT : Nat := 0x2C

/-- Number of values of a `UINT` (32-bit unsigned). -/
def UINT_RANGE : Nat := 2 ^ 32

/-- The Win32 `RECT` structure; the fields are `LONG`s. -/
structure RECT where
  left : Int
  top : Int
  right : Int
  bottom : Int
  deriving DecidableEq, Repr

/-- The Win32 `MSG` fields the program looks at. -/
structure MSG where
  hwnd : Nat
  message : Nat
  wParam : Nat
  lParam : Int
  deriving DecidableEq, Repr

/-- The two window classes `MagApp.cpp` registers: `HOST_WINDOW_CLASS_NAME` and
`DDF_WINDOW_CLASS_NAME`. -/
inductive WndClass
  | host
  | ddf
  deriving DecidableEq, Repr

/-- A registered interceptor:
`std::function<std::optional<LRESULT>(HWND, UINT, WPARAM, LPARAM)>`. -/
abbrev WndProcHandler := Nat → Nat → Nat → Int → Option Int

/-- Enumeration `CaptureMode`; `unknown` stands for any value outside the four
enumerators (the `default:` branch of `_InitFrameSource`). -/
inductive CaptureMode
  | GraphicsCapture
  | DesktopDuplication
  | GDI
  | DwmSharedSurface
  | unknown (raw : Nat)
  deriving DecidableEq, Repr

/-- Enumeration `MultiMonitorUsage`; `unknown` stands for any value outside the
three enumerators (the `default:` branch of `CalcHostWndRect`). -/
inductive MultiMonitorUsage
  | Nearest
  | Intersected
  | All
  | unknown (raw : Nat)
  deriving DecidableEq, Repr

/-- The shared `MagSettings` object. `strongRefs` is its COM reference count: the
object is alive while it is positive, and a `winrt::weak_ref` to it resolves
exactly then. -/
structure MagSettings where
  strongRefs : Nat
  captureMode : CaptureMode
  multiMonitorUsage : MultiMonitorUsage
  isSimulateExclusiveFullscreen : Bool
  isDisableDirectFlip : Bool
  isBreakpointMode : Bool
  isDrawCursor : Bool
  deriving DecidableEq, Repr

/-- The Win32 `MONITORINFO` structure: the monitor rectangle and the work area
(the monitor rectangle without the taskbar and docked bars). -/
structure MONITORINFO where
  rcMonitor : RECT
  rcWork : RECT
  deriving DecidableEq, Repr

/-- The externally visible calls the program makes, in the order it makes them. -/
inductive Event
  | exclModeHack
  | createWindow (cls : WndClass) (topmost : Bool) (h : Nat)
  | setLayeredWindowAttributes (h : Nat) (alpha : Nat)
  | deviceResourcesInitialize (ok : Bool)
  | frameSourceInitialize (ok : Bool)
  | rendererInitialize (ok : Bool)
  | cursorManagerInitialize (ok : Bool)
  | setWindowDisplayAffinity (h : Nat)
  | setWindowsHookEx (hook : Nat)
  | unhookWindowsHookEx (hook : Nat)
  | showWindow (h : Nat)
  | setWindowPos (h : Nat) (insertAfter : Nat)
  | destroyWindow (h : Nat)
  | handlerCalled (id : Nat)
  | postQuitMessage
  | defWindowProc (h : Nat) (message : Nat)
  | render (isCursorCapture : Bool)
  | setIsDrawCursor (settings : Nat) (value : Bool)
  | callNextHookEx
  deriving DecidableEq, Repr

/-- The `Renderer` object as far as `MagApp.cpp` sees it: how many times
`Render` has been called on it. The frame counter it reports is `Env.frameCount`. -/
structure Renderer where
  renderCalls : Nat
  deriving DecidableEq, Repr

/-- The frame source object: the capture mode it was built for. -/
structure FrameSource where
  mode : CaptureMode
  deriving DecidableEq, Repr

/-- The data members of class `MagApp` that `MagApp.cpp` reads and writes, except
`_dispatcher` and `_hInst`, which only pass through. Handles are numbers with `0`
for `NULL`; the `winrt` reference `_settings` is `none` for `nullptr` and `some p`
for the object at address `p`; the four owning pointers are `none` when empty.
`_wndProcHandlers` is the `std::map` from id to handler (the container that has
`emplace(...).second`, `erase(key)` and `rbegin()`), as its list of entries in
ascending key order. -/
structure MagApp where
  _hwndSrc : Nat
  _settings : Option Nat
  _hwndHost : Nat
  _hwndDDF : Nat
  _hostWndRect : RECT
  _deviceResources : Option Unit
  _frameSource : Option FrameSource
  _renderer : Option Renderer
  _cursorManager : Option Unit
  _hKeyboardHook : Nat
  _nextWndProcHandlerID : Nat
  _wndProcHandlers : List (Nat × WndProcHandler)

/-- The process as the program sees it: the orchestrator, the `MagSettings`
objects by address, the live windows of the two classes, the `registered` flag
of `_RegisterWndClasses`, the quit flag set by `PostQuitMessage`, the weak
references held by cursor restorations that are waiting for their 400 ms, and
the log of external calls. -/
structure World where
  app : MagApp
  heap : Nat → MagSettings
  windows : List (Nat × WndClass)
  wndClassesRegistered : Bool
  quitPosted : Bool
  pendingRestores : List Nat
  events : List Event

/-- The answers of the collaborators and of the operating system during one run. -/
structure Env where
  monitorFromWindow : Nat → Nat
  getMonitorInfo : Nat → Option MONITORINFO
  getWindowFrameRect : Nat → Option RECT
  enumDisplayMonitors : Option (List RECT)
  checkOverlap : RECT → RECT → Bool
  virtualScreenX : Int
  virtualScreenY : Int
  virtualScreenCX : Int
  virtualScreenCY : Int
  createHostWindow : Nat
  createDDFWindow : Nat
  deviceResourcesInitialize : Bool
  frameSourceInitialize : Bool
  frameSourceIsScreenCapture : Bool
  rendererInitialize : Bool
  cursorManagerInitialize : Bool
  osAtLeast_10_0_19041 : Bool
  setWindowsHookEx : Nat
  frameCount : Nat → Nat
  defWindowProc : Nat → Nat → Nat → Int → Int

/-- Append one event to the log. -/
def World.emit (w : World) (e : Event) : World :=
  { w with events := w.events ++ [e] }

/-! ## Handler registry (`std::map<UINT, handler>`) -/

/-- The `std::map::emplace` of a key and a value into the entries in ascending key
order: the entry is inserted at its sorted place and `true` is returned, unless
the key is present already, when the map is unchanged and `false` is returned. -/
def mapEmplace (k : Nat) (v : WndProcHandler) :
    List (Nat × WndProcHandler) → List (Nat × WndProcHandler) × Bool
  | [] => ([(k, v)], true)
  | (k', v') :: rest =>
    if k < k' then ((k, v) :: (k', v') :: rest, true)
    else if k = k' then ((k', v') :: rest, false)
    else ((k', v') :: (mapEmplace k v rest).1, (mapEmplace k v rest).2)

/-- The `std::map::erase` by key. -/
def mapErase (k : Nat) (m : List (Nat × WndProcHandler)) : List (Nat × WndProcHandler) :=
  m.filter (fun e => e.1 ≠ k)

/-- Source `MagApp::RegisterWndProcHandler`: take the counter as the id, increment the
32-bit counter, emplace; return the id, or `0` when the key was present. -/
def RegisterWndProcHandler (handler : WndProcHandler) (a : MagApp) : Nat × MagApp :=
  let id := a._nextWndProcHandlerID
  let r := mapEmplace id handler a._wndProcHandlers
  (if r.2 then id else 0,
   { a with _nextWndProcHandlerID := (a._nextWndProcHandlerID + 1) % UINT_RANGE,
            _wndProcHandlers := r.1 })

/-- Source `MagApp::UnregisterWndProcHandler`. -/
def UnregisterWndProcHandler (id : Nat) (a : MagApp) : MagApp :=
  { a with _wndProcHandlers := mapErase id a._wndProcHandlers }

/-- The `for` loop of `_HostWndProc` over the entries from `rbegin()` to `rend()`,
given in that order: call each handler, stop at the first present result. Returns
the ids of the handlers called, in call order, and the result if one was present. -/
def callHandlers (hWnd message wParam : Nat) (lParam : Int) :
    List (Nat × WndProcHandler) → List Nat × Option Int
  | [] => ([], none)
  | (id, h) :: rest =>
    match h hWnd message wParam lParam with
    | some r => ([id], some r)
    | none => (id :: (callHandlers hWnd message wParam lParam rest).1,
               (callHandlers hWnd message wParam lParam rest).2)

/-- Source `MagApp::_HostWndProc`: offer the message to the handlers in reverse map
order; without a result, `WM_DESTROY` posts the quit message and returns `0`, and
every other message goes to `DefWindowProc`. -/
def _HostWndProc (env : Env) (hWnd message wParam : Nat) (lParam : Int) (w : World) :
    Int × World :=
  let r := callHandlers hWnd message wParam lParam w.app._wndProcHandlers.reverse
  let w1 := { w with events := w.events ++ r.1.map Event.handlerCalled }
  match r.2 with
  | some v => (v, w1)
  | none =>
    if message = WM_DESTROY then
      (0, { w1 with quitPosted := true, events := w1.events ++ [Event.postQuitMessage] })
    else
      (env.defWindowProc hWnd message wParam lParam,
       w1.emit (Event.defWindowProc hWnd message))

/-- Source `DDFWndProc`: `WM_DESTROY` returns `0`, the rest goes to `DefWindowProc`. -/
def DDFWndProc (env : Env) (hWnd message wParam : Nat) (lParam : Int) (w : World) :
    Int × World :=
  if message = WM_DESTROY then (0, w)
  else (env.defWindowProc hWnd message wParam lParam,
        w.emit (Event.defWindowProc hWnd message))

/-! ## Multi-monitor placement (`CalcHostWndRect`) -/

/-- Reduce an integer to the range of a 32-bit `LONG` (two's complement). -/
def wrapLong (x : Int) : Int := (x + 2 ^ 31) % 2 ^ 32 - 2 ^ 31

/-- The Win32 `IsRectEmpty`: no width or no height. -/
def IsRectEmpty (r : RECT) : Bool := decide (r.right ≤ r.left ∨ r.bottom ≤ r.top)

/-- The Win32 `UnionRect(dst, src1, src2)`, returning `dst`: the smallest rectangle
that contains both source rectangles, where an empty source rectangle is ignored
and two empty sources give the all-zero rectangle. -/
def UnionRect (src1 src2 : RECT) : RECT :=
  if IsRectEmpty src1 then
    if IsRectEmpty src2 then ⟨0, 0, 0, 0⟩ else src2
  else if IsRectEmpty src2 then src1
  else ⟨min src1.left src2.left, min src1.top src2.top,
        max src1.right src2.right, max src1.bottom src2.bottom⟩

/-- Source `MonitorEnumProc`: `params.1` is the source window's frame rectangle,
`params.2` the accumulated result; a monitor that overlaps the frame rectangle
(`Win32Utils::CheckOverlap`, given by `env.checkOverlap`) is united into the result. -/
def MonitorEnumProc (env : Env) (params : RECT × RECT) (monitorRect : RECT) : RECT × RECT :=
  if env.checkOverlap params.1 monitorRect then
    (params.1, UnionRect monitorRect params.2)
  else params

/-- Source `CalcHostWndRect`: the returned `Bool` is the function's result and the
`RECT` is the value of the reference parameter `result` afterwards. -/
def CalcHostWndRect (env : Env) (hWnd : Nat) (multiMonitorUsage : MultiMonitorUsage)
    (result : RECT) : Bool × RECT :=
  match multiMonitorUsage with
  | .Nearest =>
    let hMonitor := env.monitorFromWindow hWnd
    if hMonitor = 0 then (false, result)
    else
      match env.getMonitorInfo hMonitor with
      | none => (false, result)
      | some mi => (true, mi.rcMonitor)
  | .Intersected =>
    match env.getWindowFrameRect hWnd with
    | none => (false, result)
    | some frame =>
      match env.enumDisplayMonitors with
      | none => (false, result)
      | some monitors =>
        let params := monitors.foldl (MonitorEnumProc env) (frame, ⟨0, 0, 0, 0⟩)
        let result := params.2
        if wrapLong (result.right - result.left) ≤ 0
            ∨ wrapLong (result.bottom - result.top) ≤ 0 then
          (false, result)
        else (true, result)
  | .All =>
    (true, ⟨env.virtualScreenX, env.virtualScreenY,
            wrapLong (env.virtualScreenX + env.virtualScreenCX),
            wrapLong (env.virtualScreenY + env.virtualScreenCY)⟩)
  | .unknown _ => (false, result)

/-! ## Windows, teardown, message loop -/

/-- The settings object `_settings` refers to, if the reference is not null. -/
def World.settingsObj (w : World) : Option MagSettings :=
  w.app._settings.map w.heap

/-- Add one strong reference to the object at `p`. -/
def addRef (p : Nat) (heap : Nat → MagSettings) : Nat → MagSettings :=
  Function.update heap p { heap p with strongRefs := (heap p).strongRefs + 1 }

/-- Drop one strong reference to the object at `p`. -/
def release (p : Nat) (heap : Nat → MagSettings) : Nat → MagSettings :=
  Function.update heap p { heap p with strongRefs := (heap p).strongRefs - 1 }

/-- Source `MagApp::_OnQuit`: unhook and null the keyboard hook if it is set, empty the
four owning pointers and the settings reference (which releases its strong
reference), set the id counter to 1 and clear the handler map. -/
def _OnQuit (w : World) : World :=
  let w1 : World :=
    if w.app._hKeyboardHook ≠ 0 then
      { w with app := { w.app with _hKeyboardHook := 0 },
               events := w.events ++ [Event.unhookWindowsHookEx w.app._hKeyboardHook] }
    else w
  { w1 with
    app := { w1.app with
      _cursorManager := none, _renderer := none, _frameSource := none,
      _deviceResources := none, _settings := none,
      _nextWndProcHandlerID := 1, _wndProcHandlers := [] },
    heap := match w1.app._settings with
      | some p => release p w1.heap
      | none => w1.heap }

/-- The Win32 `DestroyWindow` on a window of this thread: a live window receives
`WM_DESTROY` in its window procedure during the call and is then gone; on a
handle that names no live window the call fails and changes nothing. -/
def DestroyWindow (env : Env) (h : Nat) (w : World) : World :=
  let w1 := w.emit (Event.destroyWindow h)
  match w.windows.lookup h with
  | none => w1
  | some cls =>
    let w2 := match cls with
      | .host => (_HostWndProc env h WM_DESTROY 0 0 w1).2
      | .ddf => (DDFWndProc env h WM_DESTROY 0 0 w1).2
    { w2 with windows := w2.windows.filter (fun e => e.1 ≠ h) }

/-- Source `MagApp::Stop`. -/
def Stop (env : Env) (w : World) : World :=
  let w1 := if w.app._hwndDDF ≠ 0 then DestroyWindow env w.app._hwndDDF w else w
  if w1.app._hwndHost ≠ 0 then DestroyWindow env w1.app._hwndHost w1 else w1

/-- The Win32 `DispatchMessage`: a message for a live window of one of the two classes
goes to that class's window procedure; any other message belongs to a window
this file does not own. -/
def DispatchMessage (env : Env) (m : MSG) (w : World) : World :=
  match w.windows.lookup m.hwnd with
  | some .host => (_HostWndProc env m.hwnd m.message m.wParam m.lParam w).2
  | some .ddf => (DDFWndProc env m.hwnd m.message m.wParam m.lParam w).2
  | none => w

/-- What one `PeekMessage` call of the loop brings: a message taken from the queue,
or code run from inside the message pump that calls `MagApp::Stop()`. -/
inductive LoopInput
  | message (m : MSG)
  | stopCall

/-- The inner `while (PeekMessage(...))` loop of `_RunMessageLoop` over the pending
inputs. A retrieved `WM_QUIT` runs `_OnQuit` and ends the loop (`true`); when the
queue is empty and the quit flag is set, `PeekMessage` delivers `WM_QUIT`. -/
def pumpMessages (env : Env) : List LoopInput → World → Bool × World
  | [], w =>
    if w.quitPosted then (true, _OnQuit { w with quitPosted := false })
    else (false, w)
  | .message m :: rest, w =>
    if m.message = WM_QUIT then (true, _OnQuit w)
    else pumpMessages env rest (DispatchMessage env m w)
  | .stopCall :: rest, w => pumpMessages env rest (Stop env w)

/-- The part of one iteration of `_RunMessageLoop` after the message pump:
`_renderer->Render()`, then the reveal of the flip-suppression window when the
frame counter reads 2 and `_hwndDDF` is not null. `none` is the dereference of an
empty `_renderer`. -/
def renderAndReveal (env : Env) (w : World) : Option World :=
  match w.app._renderer with
  | none => none
  | some r =>
    let r1 : Renderer := { renderCalls := r.renderCalls + 1 }
    let w1 : World :=
      { w with app := { w.app with _renderer := some r1 },
               events := w.events ++ [Event.render false] }
    if env.frameCount r1.renderCalls = 2 ∧ w1.app._hwndDDF ≠ 0 then
      some { w1 with events := w1.events ++
        [Event.showWindow w1.app._hwndDDF,
         Event.setWindowPos w1.app._hwndDDF w1.app._hwndHost] }
    else some w1

/-- How a run of the message loop ends within the inputs observed. -/
inductive LoopResult
  | quit (w : World)
  | running (w : World)
  | crashed

/-- Source `MagApp::_RunMessageLoop`. Each element of `batches` is what the message pump
of one iteration retrieves; the loop is followed for as many iterations as there
are batches. -/
def _RunMessageLoop (env : Env) : List (List LoopInput) → World → LoopResult
  | [], w => .running w
  | batch :: rest, w =>
    match pumpMessages env batch w with
    | (true, w1) => .quit w1
    | (false, w1) =>
      match renderAndReveal env w1 with
      | none => .crashed
      | some w2 => _RunMessageLoop env rest w2

/-! ## Initialization (`Run`) -/

/-- Source `MagApp::_CreateHostWnd`: refuse when a window of the host class exists,
compute the placement, create the window (topmost unless in breakpoint mode) and
set its layered alpha (254 when flip suppression is requested, else 255). `none`
is the dereference of a null `_settings`. -/
def _CreateHostWnd (env : Env) (w : World) : Option (Bool × World) :=
  if w.windows.any (fun e => decide (e.2 = WndClass.host)) then some (false, w)
  else
    match w.settingsObj with
    | none => none
    | some settings =>
      let r := CalcHostWndRect env w.app._hwndSrc settings.multiMonitorUsage w.app._hostWndRect
      let w1 : World := { w with app := { w.app with _hostWndRect := r.2 } }
      if r.1 = false then some (false, w1)
      else
        let h := env.createHostWindow
        let w2 : World :=
          { w1 with app := { w1.app with _hwndHost := h },
                    events := w1.events ++
                      [Event.createWindow WndClass.host (!settings.isBreakpointMode) h] }
        if h = 0 then some (false, w2)
        else
          some (true,
            { w2 with
              windows := (h, WndClass.host) :: w2.windows,
              events := w2.events ++
                [Event.setLayeredWindowAttributes h
                  (if settings.isDisableDirectFlip then 254 else 255)] })

/-- Source `MagApp::_InitFrameSource`: build the frame source for the capture mode
(an unknown mode fails before anything is built), then initialize it. -/
def _InitFrameSource (env : Env) (w : World) : Option (Bool × World) :=
  match w.settingsObj with
  | none => none
  | some settings =>
    match settings.captureMode with
    | .unknown _ => some (false, w)
    | mode =>
      let w1 : World :=
        { w with app := { w.app with _frameSource := some { mode := mode } },
                 events := w.events ++ [Event.frameSourceInitialize env.frameSourceInitialize] }
      some (env.frameSourceInitialize, w1)

/-- Source `MagApp::_DisableDirectFlip`: create the flip-suppression window (not shown),
make it opaque, and exclude it from capture for a screen-capture frame source on
an OS at or after 10.0.19041. `none` is the dereference of an empty `_frameSource`. -/
def _DisableDirectFlip (env : Env) (w : World) : Option (Bool × World) :=
  let h := env.createDDFWindow
  let w1 : World :=
    { w with app := { w.app with _hwndDDF := h },
             events := w.events ++ [Event.createWindow WndClass.ddf false h] }
  if h = 0 then some (false, w1)
  else
    let w2 : World :=
      { w1 with windows := (h, WndClass.ddf) :: w1.windows,
                events := w1.events ++ [Event.setLayeredWindowAttributes h 255] }
    match w2.app._frameSource with
    | none => none
    | some _ =>
      if env.frameSourceIsScreenCapture ∧ env.osAtLeast_10_0_19041 then
        some (true, w2.emit (Event.setWindowDisplayAffinity h))
      else some (true, w2)

/-- How a call of `Run` ends within the inputs observed. -/
inductive RunResult
  | returned (value : Bool) (w : World)
  | running (w : World)
  | crashed

/-- The tail `Stop(); _RunMessageLoop(); return false;` of a failed initialization
step, and with `stop = false` the tail `_RunMessageLoop(); return false;` of a
completed initialization. -/
def drainAndReturn (env : Env) (stop : Bool) (batches : List (List LoopInput))
    (w : World) : RunResult :=
  match _RunMessageLoop env batches (if stop then Stop env w else w) with
  | .quit w1 => .returned false w1
  | .running w1 => .running w1
  | .crashed => .crashed

/-- The assignment `_settings = settings` of a `winrt` reference: the new object gains
a strong reference, the object referred to before (if any) loses one. -/
def assignSettings (settings : Nat) (w : World) : World :=
  { w with
    app := { w.app with _settings := some settings },
    heap := match w.app._settings with
      | some old => release old (addRef settings w.heap)
      | none => addRef settings w.heap }

/-- The part of `Run` after `_CreateHostWnd` has succeeded: Device Context, Frame
Source, Effect Renderer, Cursor Overlay, the flip-suppression window if it is
requested and the run is not in breakpoint mode, the keyboard hook, the reveal
of the host window, and the message loop. A failed step calls `Stop()`, runs
the message loop and returns `false`. -/
def initAfterHostWnd (env : Env) (batches : List (List LoopInput)) (w3 : World) :
    RunResult :=
  let w4 : World :=
    { w3 with app := { w3.app with _deviceResources := some () },
              events := w3.events ++
                [Event.deviceResourcesInitialize env.deviceResourcesInitialize] }
  if env.deviceResourcesInitialize = false then drainAndReturn env true batches w4
  else
    match _InitFrameSource env w4 with
    | none => .crashed
    | some (false, w5) => drainAndReturn env true batches w5
    | some (true, w5) =>
      let w6 : World :=
        { w5 with app := { w5.app with _renderer := some { renderCalls := 0 } },
                  events := w5.events ++ [Event.rendererInitialize env.rendererInitialize] }
      if env.rendererInitialize = false then drainAndReturn env true batches w6
      else
        let w7 : World :=
          { w6 with app := { w6.app with _cursorManager := some () },
                    events := w6.events ++
                      [Event.cursorManagerInitialize env.cursorManagerInitialize] }
        if env.cursorManagerInitialize = false then drainAndReturn env true batches w7
        else
          match w7.settingsObj with
          | none => .crashed
          | some s7 =>
            let r8 : Option (Bool × World) :=
              if s7.isDisableDirectFlip ∧ ¬ s7.isBreakpointMode then _DisableDirectFlip env w7
              else some (true, w7)
            match r8 with
            | none => .crashed
            | some (_, w8) =>
              let w9 : World :=
                { w8 with app := { w8.app with _hKeyboardHook := env.setWindowsHookEx },
                          events := w8.events ++
                            [Event.setWindowsHookEx env.setWindowsHookEx,
                             Event.showWindow w8.app._hwndHost] }
              drainAndReturn env false batches w9

/-- The part of `Run` before `_CreateHostWnd`: store the source window and the
settings reference, build the exclusive-fullscreen hack if the settings ask for
it, and register the window classes. -/
def runPrelude (hwndSrc : Nat) (settings : Nat) (w : World) : World :=
  let w0 : World :=
    { assignSettings settings w with
      app := { (assignSettings settings w).app with _hwndSrc := hwndSrc } }
  let w1 : World :=
    if (w0.heap settings).isSimulateExclusiveFullscreen then w0.emit Event.exclModeHack
    else w0
  { w1 with wndClassesRegistered := true }

/-- Source `MagApp::Run`, called with the source window, the address of the settings
object and the inputs its message loop will retrieve. When `_CreateHostWnd` fails
it runs `_OnQuit` and returns `false` at once. -/
def Run (env : Env) (hwndSrc : Nat) (settings : Nat) (batches : List (List LoopInput))
    (w : World) : RunResult :=
  match _CreateHostWnd env (runPrelude hwndSrc settings w) with
  | none => .crashed
  | some (false, w3) => .returned false (_OnQuit w3)
  | some (true, w3) => initAfterHostWnd env batches w3

/-! ## Capture-triggered cursor toggle (`LowLevelKeyboardProc`) -/

/-- Overwrite the `IsDrawCursor` property of the settings object at `p`. -/
def setIsDrawCursor (p : Nat) (value : Bool) (w : World) : World :=
  { w with heap := Function.update w.heap p { w.heap p with isDrawCursor := value },
           events := w.events ++ [Event.setIsDrawCursor p value] }

/-- The coroutine lambda of `LowLevelKeyboardProc` up to its first suspension
(`co_await 400 ms`): nothing when `_settings` is null or `IsDrawCursor` is off;
otherwise switch `IsDrawCursor` off, render one cursor-capture pass, and suspend
holding a weak reference to the settings object. `none` is the dereference of an
empty `_renderer`. -/
def snapshotPressed (w : World) : Option World :=
  match w.app._settings with
  | none => some w
  | some p =>
    if (w.heap p).isDrawCursor = false then some w
    else
      let w1 := setIsDrawCursor p false w
      match w1.app._renderer with
      | none => none
      | some r =>
        some { w1 with
          app := { w1.app with _renderer := some { renderCalls := r.renderCalls + 1 } },
          events := w1.events ++ [Event.render true],
          pendingRestores := w1.pendingRestores ++ [p] }

/-- Source `LowLevelKeyboardProc`, with the `vkCode` of the `KBDLLHOOKSTRUCT` that
`lParam` points to. -/
def LowLevelKeyboardProc (nCode : Int) (wParam : Nat) (vkCode : Nat) (w : World) :
    Option World :=
  if nCode ≠ HC_ACTION ∨ wParam ≠ WM_KEYDOWN then some (w.emit Event.callNextHookEx)
  else if vkCode = VK_SNAPSHOT then
    (snapshotPressed w).map (fun w1 => w1.emit Event.callNextHookEx)
  else some (w.emit Event.callNextHookEx)

/-- The rest of the coroutine, resumed on the dispatcher after the 400 ms, for the
oldest suspended restoration: if the weak reference still resolves (the object
has a strong reference left), switch `IsDrawCursor` on. -/
def resumeRestore (w : World) : World :=
  match w.pendingRestores with
  | [] => w
  | p :: rest =>
    let w1 : World := { w with pendingRestores := rest }
    if 0 < (w1.heap p).strongRefs then setIsDrawCursor p true w1 else w1

/-! ## Starting state and sample inputs -/

/-- Modelled from the spec: `MagApp.h`, which gives the data members their initial
values, is missing. The orchestrator before its first `Run` is the spec's `Idle`
state: null handles, empty references, no handler, and id counter 1 (the spec's
teardown resets the counter "back to 1"). -/
def MagApp.initial : MagApp :=
  { _hwndSrc := 0, _settings := none, _hwndHost := 0, _hwndDDF := 0,
    _hostWndRect := ⟨0, 0, 0, 0⟩, _deviceResources := none, _frameSource := none,
    _renderer := none, _cursorManager := none, _hKeyboardHook := 0,
    _nextWndProcHandlerID := 1, _wndProcHandlers := [] }

/-- The process before the first `Run`, with the settings objects `heap`. -/
def World.initial (heap : Nat → MagSettings) : World :=
  { app := MagApp.initial, heap := heap, windows := [], wndClassesRegistered := false,
    quitPosted := false, pendingRestores := [], events := [] }

/-- The events a finished `Run` has logged (none for a crash). -/
def RunResult.events : RunResult → List Event
  | .returned _ w => w.events
  | .running w => w.events
  | .crashed => []

/-- The world a `Run` leaves behind, if it returned. -/
def RunResult.world? : RunResult → Option World
  | .returned _ w => some w
  | _ => none

/-- A 1920x1080 primary monitor. -/
def sampleMonitor : RECT := ⟨0, 0, 1920, 1080⟩

/-- Sample settings object held by its caller: nearest monitor, cursor drawn,
flip suppression as given. -/
def sampleSettings (disableDirectFlip : Bool) : MagSettings :=
  { strongRefs := 1, captureMode := .GraphicsCapture, multiMonitorUsage := .Nearest,
    isSimulateExclusiveFullscreen := false, isDisableDirectFlip := disableDirectFlip,
    isBreakpointMode := false, isDrawCursor := true }

/-- Sample environment: one monitor with a 40-pixel taskbar, every step succeeds,
`CreateWindowEx` returns the handles `hostHandle` and `ddfHandle`, and every
`Render` call completes one frame. The overlap test is the usual strict
intersection test on the four edges. -/
def sampleEnv (hostHandle ddfHandle : Nat) : Env :=
  { monitorFromWindow := fun _ => 1,
    getMonitorInfo := fun _ => some { rcMonitor := sampleMonitor, rcWork := ⟨0, 0, 1920, 1040⟩ },
    getWindowFrameRect := fun _ => some ⟨100, 100, 900, 700⟩,
    enumDisplayMonitors := some [sampleMonitor],
    checkOverlap := fun a b =>
      decide (b.left < a.right ∧ b.top < a.bottom ∧ a.left < b.right ∧ a.top < b.bottom),
    virtualScreenX := 0, virtualScreenY := 0, virtualScreenCX := 1920, virtualScreenCY := 1080,
    createHostWindow := hostHandle, createDDFWindow := ddfHandle,
    deviceResourcesInitialize := true, frameSourceInitialize := true,
    frameSourceIsScreenCapture := false, rendererInitialize := true,
    cursorManagerInitialize := true, osAtLeast_10_0_19041 := true,
    setWindowsHookEx := 9, frameCount := fun n => n,
    defWindowProc := fun _ _ _ _ => 0 }

/-- First of two consecutive runs: flip suppression requested (settings object 1),
windows 100 (host) and 200 (flip suppression) are created, two frames are
rendered, then `Stop()` is called from the message pump. -/
def flipRun1 : RunResult :=
  Run (sampleEnv 100 200) 7 1 [[], [], [.stopCall]]
    (World.initial (fun p => sampleSettings (decide (p = 1))))

/-- Second of two consecutive runs, started in the world the first run left: flip
suppression not requested (settings object 2), host window 101, three frames are
rendered, then `Stop()` is called from the message pump. -/
def flipRun2 : RunResult :=
  match flipRun1.world? with
  | some w => Run (sampleEnv 101 201) 7 2 [[], [], [], [.stopCall]] w
  | none => .crashed

/-- The smallest rectangle that contains the two rectangles. -/
def hull (a b : RECT) : RECT :=
  ⟨min a.left b.left, min a.top b.top, max a.right b.right, max a.bottom b.bottom⟩

/-- The union (bounding rectangle) of a list of rectangles, in the spec's words;
the all-zero rectangle when there is none. -/
def boundingRect : List RECT → RECT
  | [] => ⟨0, 0, 0, 0⟩
  | r :: rs => rs.foldl hull r

/-- A monitor rectangle as the OS reports one: positive width and height, and
coordinates far inside the `LONG` range. -/
def validMonitorRect (r : RECT) : Prop :=
  -2 ^ 30 ≤ r.left ∧ r.left < r.right ∧ r.right < 2 ^ 30 ∧
  -2 ^ 30 ≤ r.top ∧ r.top < r.bottom ∧ r.bottom < 2 ^ 30

instance (r : RECT) : Decidable (validMonitorRect r) := by
  unfold validMonitorRect
  infer_instance

/-- A running world for the cursor toggle: the sample run after initialization and
one loop iteration, its settings object 1 held by the caller and by `_settings`. -/
def runningWorld : Option World :=
  match Run (sampleEnv 100 200) 7 1 [[]] (World.initial (fun _ => sampleSettings true)) with
  | .running w => some w
  | _ => none

/-- The cursor scenario with an early teardown: print-screen is pressed in the
running world, then `Stop()` ends the run (`_OnQuit` releases `_settings`) while
the caller keeps its own reference, then the suspended restoration resumes.
Returns the world after the teardown and the world after the restoration. -/
def restoreAfterTeardown : Option (World × World) :=
  match runningWorld with
  | none => none
  | some w =>
    match LowLevelKeyboardProc HC_ACTION WM_KEYDOWN VK_SNAPSHOT w with
    | none => none
    | some w1 =>
      match _RunMessageLoop (sampleEnv 100 200) [[.stopCall]] w1 with
      | .quit w2 => some (w2, resumeRestore w2)
      | _ => none

/-- Register the handlers of a list one after the other, first to last. Returns
the ids the calls returned, in call order, and the orchestrator afterwards. -/
def registerAll : List WndProcHandler → MagApp → List Nat × MagApp
  | [], a => ([], a)
  | h :: hs, a =>
    ((RegisterWndProcHandler h a).1 :: (registerAll hs (RegisterWndProcHandler h a).2).1,
     (registerAll hs (RegisterWndProcHandler h a).2).2)

/-- The world after the handlers `hs` have been registered one after the other. -/
def World.registered (w : World) (hs : List WndProcHandler) : World :=
  { w with app := (registerAll hs w.app).2 }

/-- One call on the handler registry. -/
inductive RegistryOp
  | register (h : WndProcHandler)
  | unregister (id : Nat)

/-- Run a sequence of registry calls. Returns the ids the `RegisterWndProcHandler`
calls returned, in call order, and the orchestrator afterwards. -/
def runOps : List RegistryOp → MagApp → List Nat × MagApp
  | [], a => ([], a)
  | .register h :: ops, a =>
    ((RegisterWndProcHandler h a).1 :: (runOps ops (RegisterWndProcHandler h a).2).1,
     (runOps ops (RegisterWndProcHandler h a).2).2)
  | .unregister id :: ops, a => runOps ops (UnregisterWndProcHandler id a)

/-- Number of `RegisterWndProcHandler` calls in a sequence of registry calls. -/
def countRegister : List RegistryOp → Nat
  | [] => 0
  | .register _ :: ops => countRegister ops + 1
  | .unregister _ :: ops => countRegister ops

/-- The sequence "register `h`, unregister the id just handed out", `k` times, when
the counter stands at `c`. -/
def churnOps (h : WndProcHandler) : Nat → Nat → List RegistryOp
  | _, 0 => []
  | c, k + 1 => .register h :: .unregister (c % UINT_RANGE) :: churnOps h (c + 1) k

/-- Dispatch in the spec's words, for handlers `H1..Hn` given last-registered
first together with the position `n` of the first of them: offer the message to
`Hn`, then `Hn-1`, down to `H1`, and stop at the first present result. Returns the
positions of the handlers called, in call order, and the result if there is one. -/
def offerDownFrom (hWnd message wParam : Nat) (lParam : Int) :
    Nat → List WndProcHandler → List Nat × Option Int
  | _, [] => ([], none)
  | n, h :: earlier =>
    match h hWnd message wParam lParam with
    | some r => ([n], some r)
    | none => (n :: (offerDownFrom hWnd message wParam lParam (n - 1) earlier).1,
               (offerDownFrom hWnd message wParam lParam (n - 1) earlier).2)

/-- Dispatch in the spec's words for handlers registered in the order `hs`. -/
def offerInReverseRegistrationOrder (hs : List WndProcHandler) (hWnd message wParam : Nat)
    (lParam : Int) : List Nat × Option Int :=
  offerDownFrom hWnd message wParam lParam hs.length hs.reverse

/-- The world right after a teardown of the untouched starting world. -/
def teardownWorld : World := _OnQuit (World.initial (fun _ => sampleSettings true))

/-- A handler that passes every message on. -/
def passHandler : WndProcHandler := fun _ _ _ _ => none

/-- A handler that answers every message with `v`. -/
def answerHandler (v : Int) : WndProcHandler := fun _ _ _ _ => some v

/-- As many handlers as a `UINT` has values: all pass, except that the last but one
answers 5 and the last answers 7. -/
def wrapHandlers : List WndProcHandler :=
  List.replicate (UINT_RANGE - 2) passHandler ++ [answerHandler 5, answerHandler 7]

/-- The initialization steps of `Run` after host-window creation. -/
inductive InitStep
  | deviceContext
  | frameSource
  | effectRenderer
  | cursorOverlay
  deriving DecidableEq, Repr

/-- Whether the capture mode is outside the four enumerators. -/
def CaptureMode.isUnknown : CaptureMode → Bool
  | .unknown _ => true
  | _ => false

/-- Whether `step` is the step that fails, all steps before it succeeding: the
Frame Source step fails on an unknown capture mode or a failed `Initialize()`. -/
def failsAt (env : Env) (mode : CaptureMode) : InitStep → Bool
  | .deviceContext => !env.deviceResourcesInitialize
  | .frameSource =>
    env.deviceResourcesInitialize && (mode.isUnknown || !env.frameSourceInitialize)
  | .effectRenderer =>
    env.deviceResourcesInitialize && !mode.isUnknown && env.frameSourceInitialize
      && !env.rendererInitialize
  | .cursorOverlay =>
    env.deviceResourcesInitialize && !mode.isUnknown && env.frameSourceInitialize
      && env.rendererInitialize && !env.cursorManagerInitialize

/-- The `Initialize()` calls made when `step` is the step that fails: every step
before it with result `true`, the step itself with result `false` (an unknown
capture mode fails before the frame source's `Initialize()` is reached), and
nothing after it. -/
def initEventsUpTo (mode : CaptureMode) : InitStep → List Event
  | .deviceContext => [Event.deviceResourcesInitialize false]
  | .frameSource =>
    Event.deviceResourcesInitialize true ::
      (if mode.isUnknown then [] else [Event.frameSourceInitialize false])
  | .effectRenderer =>
    [Event.deviceResourcesInitialize true, Event.frameSourceInitialize true,
     Event.rendererInitialize false]
  | .cursorOverlay =>
    [Event.deviceResourcesInitialize true, Event.frameSourceInitialize true,
     Event.rendererInitialize true, Event.cursorManagerInitialize false]

/-- The events that `Stop()`, the message pump and `_OnQuit` can log. -/
def Event.isDrainEvent : Event → Bool
  | .destroyWindow _ => true
  | .handlerCalled _ => true
  | .postQuitMessage => true
  | .defWindowProc _ _ => true
  | .unhookWindowsHookEx _ => true
  | _ => false

/-- Relation between a world and a later one reached by `Stop()`, window procedures
and message dispatch alone: the orchestrator is untouched, a posted quit stays
posted, no window appears, and the log grows by `extra`, all of it drain events. -/
def DrainsWith (extra : List Event) (w w' : World) : Prop :=
  w'.app = w.app ∧ (w.quitPosted = true → w'.quitPosted = true)
    ∧ (∀ x, w.windows.lookup x = none → w'.windows.lookup x = none)
    ∧ w'.events = w.events ++ extra ∧ ∀ e ∈ extra, e.isDrainEvent = true

/-- A running world written out: host window 100 and flip-suppression window 200
are live, one frame has been rendered, and the settings object 1 (cursor drawn)
is held by its caller and by `_settings`. -/
def cursorWorld : World :=
  { app :=
      { _hwndSrc := 7, _settings := some 1, _hwndHost := 100, _hwndDDF := 200,
        _hostWndRect := sampleMonitor, _deviceResources := some (),
        _frameSource := some { mode := .GraphicsCapture },
        _renderer := some { renderCalls := 1 }, _cursorManager := some (), _hKeyboardHook := 9,
        _nextWndProcHandlerID := 1, _wndProcHandlers := [] },
    heap := fun _ => { sampleSettings true with strongRefs := 2 },
    windows := [(200, WndClass.ddf), (100, WndClass.host)],
    wndClassesRegistered := true, quitPosted := false, pendingRestores := [], events := [] }

/-- Three monitors side by side and a source window that straddles the first two. -/
def tripleMonitorEnv : Env :=
  { sampleEnv 100 200 with
    enumDisplayMonitors :=
      some [⟨0, 0, 1920, 1080⟩, ⟨1920, 0, 3840, 1080⟩, ⟨-1920, 0, 0, 1080⟩],
    getWindowFrameRect := fun _ => some ⟨1500, 100, 2500, 700⟩ }

/-- The sample environment with a frame source whose `Initialize()` fails. -/
def failingFrameSourceEnv : Env :=
  { sampleEnv 100 200 with frameSourceInitialize := false }

/-- The live windows when a `Run` returned or is still in its loop. -/
def RunResult.windows : RunResult → List (Nat × WndClass)
  | .returned _ w => w.windows
  | .running w => w.windows
  | .crashed => []

/-- Teardown resets every field the source's `_OnQuit` assigns, and leaves the two
window handles as they were. -/
theorem OnQuit_fields (w : World) :
    (_OnQuit w).app._hKeyboardHook = 0 ∧ (_OnQuit w).app._cursorManager = none ∧
    (_OnQuit w).app._renderer = none ∧ (_OnQuit w).app._frameSource = none ∧
    (_OnQuit w).app._deviceResources = none ∧ (_OnQuit w).app._settings = none ∧
    (_OnQuit w).app._wndProcHandlers = [] ∧ (_OnQuit w).app._nextWndProcHandlerID = 1 ∧
    (_OnQuit w).app._hwndDDF = w.app._hwndDDF ∧ (_OnQuit w).app._hwndHost = w.app._hwndHost := by
  unfold _OnQuit
  split <;> simp_all

/-- Teardown releases the strong reference `_settings` holds, and touches no other
settings object. -/
theorem OnQuit_heap (w : World) :
    (_OnQuit w).heap = match w.app._settings with
      | some p => release p w.heap
      | none => w.heap := by
  unfold _OnQuit
  split <;> rfl

/-- Teardown leaves the windows, the quit flag and the suspended restorations alone. -/
theorem OnQuit_frame (w : World) :
    (_OnQuit w).pendingRestores = w.pendingRestores ∧ (_OnQuit w).windows = w.windows
    ∧ (_OnQuit w).quitPosted = w.quitPosted
    ∧ (_OnQuit w).wndClassesRegistered = w.wndClassesRegistered := by
  unfold _OnQuit
  split <;> simp

/-- Teardown logs the unhook call when a keyboard hook is installed, nothing else. -/
theorem OnQuit_events (w : World) :
    (_OnQuit w).events = w.events ++
      (if w.app._hKeyboardHook ≠ 0 then [Event.unhookWindowsHookEx w.app._hKeyboardHook]
       else []) := by
  unfold _OnQuit
  split <;> simp_all

/-- C6 (evaluation at the failing input). A run that created the flip-suppression
window 200 and the host window 100 has ended through `Stop()` and `_OnQuit`. The
fields `_OnQuit` assigns are back at their starting values, both windows are
gone, but `_hwndDDF` and `_hwndHost` still hold 200 and 100 where the starting
state has null handles: the next `Run` does not start from the first run's state. -/
theorem OnQuit_leaves_stale_window_handles :
    flipRun1.world?.map (fun w => (w.app._hwndDDF, w.app._hwndHost)) = some (200, 100)
    ∧ (MagApp.initial._hwndDDF, MagApp.initial._hwndHost) = (0, 0)
    ∧ flipRun1.world?.map (fun w => w.windows) = some []
    ∧ flipRun1.world?.map (fun w => (w.app._hKeyboardHook, w.app._settings)) = some (0, none)
    ∧ flipRun1.world?.map (fun w => (w.app._renderer, w.app._frameSource)) = some (none, none)
    ∧ flipRun1.world?.map (fun w => (w.app._deviceResources, w.app._cursorManager))
        = some (none, none)
    ∧ flipRun1.world?.map
        (fun w => (w.app._nextWndProcHandlerID, w.app._wndProcHandlers.length)) = some (1, 0) := by
  decide

/-- C10 (evaluation at the failing input). The second of two consecutive runs has
disable-direct-flip clear and creates no flip-suppression window, and window 200
of the first run is destroyed before it starts; yet when its frame counter reads
2 its loop calls `ShowWindow` and `SetWindowPos` on the stale handle 200. -/
theorem second_run_reveals_stale_flip_window :
    (flipRun1.world?.map (fun w => ((w.heap 2).isDisableDirectFlip,
        (w.heap 2).isBreakpointMode)) = some (false, false)
      ∧ flipRun1.world?.map (fun w => w.windows) = some []
      ∧ flipRun1.world?.map (fun w => w.app._hwndDDF) = some 200)
    ∧ flipRun2.events.drop flipRun1.events.length =
      [Event.createWindow WndClass.host true 101,
       Event.setLayeredWindowAttributes 101 255,
       Event.deviceResourcesInitialize true,
       Event.frameSourceInitialize true,
       Event.rendererInitialize true,
       Event.cursorManagerInitialize true,
       Event.setWindowsHookEx 9,
       Event.showWindow 101,
       Event.render false,
       Event.render false,
       Event.showWindow 200,
       Event.setWindowPos 200 101,
       Event.render false,
       Event.destroyWindow 200,
       Event.destroyWindow 101,
       Event.postQuitMessage,
       Event.unhookWindowsHookEx 9] := by
  decide

/-- C4 (counterexample). For a monitor whose work area (1920x1040, a taskbar taken
off) differs from its monitor rectangle (1920x1080), policy Nearest succeeds and
returns the monitor rectangle, not the work area. -/
theorem nearest_is_not_work_area :
    (sampleEnv 100 200).getMonitorInfo ((sampleEnv 100 200).monitorFromWindow 7)
        = some { rcMonitor := ⟨0, 0, 1920, 1080⟩, rcWork := ⟨0, 0, 1920, 1040⟩ }
    ∧ CalcHostWndRect (sampleEnv 100 200) 7 MultiMonitorUsage.Nearest ⟨0, 0, 0, 0⟩
        = (true, ⟨0, 0, 1920, 1080⟩)
    ∧ CalcHostWndRect (sampleEnv 100 200) 7 MultiMonitorUsage.Nearest ⟨0, 0, 0, 0⟩
        ≠ (true, ⟨0, 0, 1920, 1040⟩) := by
  decide

/-- C4 (amended). With policy Nearest, `CalcHostWndRect` succeeds exactly when the
nearest-monitor query gives a monitor and its information can be read, and then
the result is that monitor's full rectangle `rcMonitor`; when the query gives no
monitor, or the information cannot be read, it fails and leaves `result` as it was. -/
theorem nearest_returns_monitor_rect (env : Env) (hWnd : Nat) (result : RECT) :
    (∀ mi, env.monitorFromWindow hWnd ≠ 0 →
        env.getMonitorInfo (env.monitorFromWindow hWnd) = some mi →
        CalcHostWndRect env hWnd MultiMonitorUsage.Nearest result = (true, mi.rcMonitor))
    ∧ (env.monitorFromWindow hWnd = 0 →
        CalcHostWndRect env hWnd MultiMonitorUsage.Nearest result = (false, result))
    ∧ (env.getMonitorInfo (env.monitorFromWindow hWnd) = none →
        CalcHostWndRect env hWnd MultiMonitorUsage.Nearest result = (false, result)) := by
  refine ⟨?_, ?_, ?_⟩
  · intro mi h0 hmi
    simp [CalcHostWndRect, h0, hmi]
  · intro h0
    simp [CalcHostWndRect, h0]
  · intro hmi
    simp [CalcHostWndRect, hmi]

/-- C8. In a running state with cursor drawing on, a print-screen key-down switches
`IsDrawCursor` off, renders exactly one pass flagged as cursor capture and
suspends exactly one restoration. A second trigger right after it, and a trigger
in any later state in which `IsDrawCursor` is still off, only calls the next
hook: no write, no render pass, no further restoration. -/
theorem snapshot_trigger_is_idempotent (w : World) (p : Nat) (r : Renderer)
    (hs : w.app._settings = some p) (hd : (w.heap p).isDrawCursor = true)
    (hr : w.app._renderer = some r) :
    ∃ w1, LowLevelKeyboardProc HC_ACTION WM_KEYDOWN VK_SNAPSHOT w = some w1
      ∧ (w1.heap p).isDrawCursor = false
      ∧ w1.events = w.events ++
          [Event.setIsDrawCursor p false, Event.render true, Event.callNextHookEx]
      ∧ w1.pendingRestores = w.pendingRestores ++ [p]
      ∧ LowLevelKeyboardProc HC_ACTION WM_KEYDOWN VK_SNAPSHOT w1
          = some { w1 with events := w1.events ++ [Event.callNextHookEx] }
      ∧ ∀ w', w'.app._settings = some p → (w'.heap p).isDrawCursor = false →
          LowLevelKeyboardProc HC_ACTION WM_KEYDOWN VK_SNAPSHOT w'
            = some { w' with events := w'.events ++ [Event.callNextHookEx] } := by
  have hgen : ∀ w' : World, w'.app._settings = some p → (w'.heap p).isDrawCursor = false →
      LowLevelKeyboardProc HC_ACTION WM_KEYDOWN VK_SNAPSHOT w'
        = some { w' with events := w'.events ++ [Event.callNextHookEx] } := by
    intro w' hs' hd'
    simp [LowLevelKeyboardProc, snapshotPressed, hs', hd', World.emit]
  have h1 : LowLevelKeyboardProc HC_ACTION WM_KEYDOWN VK_SNAPSHOT w = some
      { w with
        app := { w.app with _renderer := some { renderCalls := r.renderCalls + 1 } },
        heap := Function.update w.heap p { w.heap p with isDrawCursor := false },
        pendingRestores := w.pendingRestores ++ [p],
        events := w.events ++
          [Event.setIsDrawCursor p false, Event.render true, Event.callNextHookEx] } := by
    simp [LowLevelKeyboardProc, snapshotPressed, hs, hd, hr, setIsDrawCursor, World.emit]
  refine ⟨_, h1, by simp, rfl, rfl, ?_, hgen⟩
  exact hgen _ hs (by simp)

/-- C7 (counterexample). Print-screen is pressed in a running world whose settings
object is held by its caller and by `_settings`; the run is torn down (`_settings`
is null afterwards, the caller's reference is the one left, `IsDrawCursor` is
off); the restoration then resumes and writes `IsDrawCursor(true)`. -/
theorem restore_writes_after_teardown :
    restoreAfterTeardown.map (fun x => (x.1.app._settings, (x.1.heap 1).strongRefs))
      = some (none, 1)
    ∧ restoreAfterTeardown.map (fun x => ((x.1.heap 1).isDrawCursor, x.1.pendingRestores))
      = some (false, [1])
    ∧ restoreAfterTeardown.map (fun x => x.2.events.drop x.1.events.length)
      = some [Event.setIsDrawCursor 1 true]
    ∧ restoreAfterTeardown.map (fun x => (x.2.heap 1).isDrawCursor) = some true := by
  decide

/-- C7 (amended). Print-screen is pressed while cursor drawing is on and no other
restoration is waiting, and the run is torn down before the restoration resumes.
If `_settings` held the last strong reference to the settings object, the object
is gone and the restoration writes nothing; if another strong reference is left
(the caller's), the restoration writes `IsDrawCursor(true)` on the object. -/
theorem restore_after_teardown_writes_iff_alive (w : World) (p : Nat) (r : Renderer)
    (hs : w.app._settings = some p) (hd : (w.heap p).isDrawCursor = true)
    (hr : w.app._renderer = some r) (hp : w.pendingRestores = []) :
    ∃ w1, LowLevelKeyboardProc HC_ACTION WM_KEYDOWN VK_SNAPSHOT w = some w1
      ∧ (_OnQuit w1).app._settings = none
      ∧ ((_OnQuit w1).heap p).strongRefs = (w.heap p).strongRefs - 1
      ∧ ((w.heap p).strongRefs ≤ 1 →
          (resumeRestore (_OnQuit w1)).events = (_OnQuit w1).events
          ∧ (resumeRestore (_OnQuit w1)).heap = (_OnQuit w1).heap)
      ∧ (1 < (w.heap p).strongRefs →
          (resumeRestore (_OnQuit w1)).events
            = (_OnQuit w1).events ++ [Event.setIsDrawCursor p true]
          ∧ ((resumeRestore (_OnQuit w1)).heap p).isDrawCursor = true) := by
  have h1 : LowLevelKeyboardProc HC_ACTION WM_KEYDOWN VK_SNAPSHOT w = some
      { w with
        app := { w.app with _renderer := some { renderCalls := r.renderCalls + 1 } },
        heap := Function.update w.heap p { w.heap p with isDrawCursor := false },
        pendingRestores := [p],
        events := w.events ++
          [Event.setIsDrawCursor p false, Event.render true, Event.callNextHookEx] } := by
    simp [LowLevelKeyboardProc, snapshotPressed, hs, hd, hr, setIsDrawCursor, World.emit, hp]
  refine ⟨_, h1, (OnQuit_fields _).2.2.2.2.2.1, ?_, ?_, ?_⟩
  · rw [OnQuit_heap]
    simp [hs, release]
  · intro hle
    have h0 : ¬ 0 < (w.heap p).strongRefs - 1 := by omega
    unfold resumeRestore
    rw [(OnQuit_frame _).1]
    simp only [OnQuit_heap, hs]
    simp [release, h0]
  · intro hlt
    have h0 : 0 < (w.heap p).strongRefs - 1 := by omega
    unfold resumeRestore
    rw [(OnQuit_frame _).1]
    simp only [OnQuit_heap, hs]
    simp [release, h0, setIsDrawCursor]

/-! ### Intersected placement -/

/-- The enumeration callback only ever changes the accumulated rectangle, and only
for monitors that overlap the frame rectangle. -/
theorem foldl_MonitorEnumProc (env : Env) (frame : RECT) (monitors : List RECT) (acc : RECT) :
    monitors.foldl (MonitorEnumProc env) (frame, acc)
      = (frame, (monitors.filter (env.checkOverlap frame)).foldl
          (fun a m => UnionRect m a) acc) := by
  induction monitors generalizing acc with
  | nil => rfl
  | cons m rest ih =>
    by_cases h : env.checkOverlap frame m = true
    · simp [List.foldl, MonitorEnumProc, h, ih]
    · simp [List.foldl, MonitorEnumProc, h, ih]

/-- A rectangle with positive width and height and coordinates inside the range. -/
theorem validMonitorRect_hull (a b : RECT) (ha : validMonitorRect a) (hb : validMonitorRect b) :
    validMonitorRect (hull a b) := by
  unfold validMonitorRect hull at *
  simp only [min_def, max_def]
  split <;> split <;> split <;> split <;> omega

/-- On a non-empty accumulator and a non-empty monitor, `UnionRect` is the hull. -/
theorem UnionRect_valid (m a : RECT) (hm : validMonitorRect m) (ha : validMonitorRect a) :
    UnionRect m a = hull a m := by
  have h1 : IsRectEmpty m = false := by
    unfold validMonitorRect at hm
    simp [IsRectEmpty]
    omega
  have h2 : IsRectEmpty a = false := by
    unfold validMonitorRect at ha
    simp [IsRectEmpty]
    omega
  simp [UnionRect, h1, h2, hull, min_comm, max_comm]

/-- Folding `UnionRect` over valid monitors from a valid accumulator folds `hull`. -/
theorem foldl_UnionRect_valid (l : List RECT) (acc : RECT) (hacc : validMonitorRect acc)
    (hl : ∀ m ∈ l, validMonitorRect m) :
    l.foldl (fun a m => UnionRect m a) acc = l.foldl hull acc
    ∧ validMonitorRect (l.foldl hull acc) := by
  induction l generalizing acc with
  | nil => exact ⟨rfl, hacc⟩
  | cons m rest ih =>
    have hm : validMonitorRect m := hl m (List.mem_cons_self _ _)
    have hrest : ∀ x ∈ rest, validMonitorRect x := fun x hx => hl x (List.mem_cons_of_mem _ hx)
    simp only [List.foldl]
    rw [UnionRect_valid m acc hm hacc]
    exact ih (hull acc m) (validMonitorRect_hull acc m hacc hm) hrest

/-- The fold of the callback over valid monitors, started from the all-zero
rectangle, is the bounding rectangle. -/
theorem foldl_UnionRect_zero (l : List RECT) (hl : ∀ m ∈ l, validMonitorRect m) :
    l.foldl (fun a m => UnionRect m a) ⟨0, 0, 0, 0⟩ = boundingRect l
    ∧ (l ≠ [] → validMonitorRect (boundingRect l)) := by
  cases l with
  | nil => exact ⟨rfl, fun h => absurd rfl h⟩
  | cons m rest =>
    have hm : validMonitorRect m := hl m (List.mem_cons_self _ _)
    have hrest : ∀ x ∈ rest, validMonitorRect x := fun x hx => hl x (List.mem_cons_of_mem _ hx)
    have h1 : IsRectEmpty m = false := by
      unfold validMonitorRect at hm
      simp [IsRectEmpty]
      omega
    have h0 : UnionRect m ⟨0, 0, 0, 0⟩ = m := by
      have hz : IsRectEmpty ⟨0, 0, 0, 0⟩ = true := by decide
      simp only [UnionRect, h1, hz]
      simp
    simp only [List.foldl, boundingRect, h0]
    exact ⟨(foldl_UnionRect_valid rest m hm hrest).1,
      fun _ => (foldl_UnionRect_valid rest m hm hrest).2⟩

/-- The fold of `hull` contains its start and every rectangle of the list, and is
contained in every rectangle that contains them all. -/
theorem foldl_hull_bounds (l : List RECT) (acc : RECT) :
    ((l.foldl hull acc).left ≤ acc.left ∧ (l.foldl hull acc).top ≤ acc.top
      ∧ acc.right ≤ (l.foldl hull acc).right ∧ acc.bottom ≤ (l.foldl hull acc).bottom)
    ∧ (∀ m ∈ l, (l.foldl hull acc).left ≤ m.left ∧ (l.foldl hull acc).top ≤ m.top
      ∧ m.right ≤ (l.foldl hull acc).right ∧ m.bottom ≤ (l.foldl hull acc).bottom)
    ∧ (∀ b : RECT, (b.left ≤ acc.left ∧ b.top ≤ acc.top ∧ acc.right ≤ b.right
          ∧ acc.bottom ≤ b.bottom) →
        (∀ m ∈ l, b.left ≤ m.left ∧ b.top ≤ m.top ∧ m.right ≤ b.right
          ∧ m.bottom ≤ b.bottom) →
        b.left ≤ (l.foldl hull acc).left ∧ b.top ≤ (l.foldl hull acc).top
          ∧ (l.foldl hull acc).right ≤ b.right ∧ (l.foldl hull acc).bottom ≤ b.bottom) := by
  induction l generalizing acc with
  | nil =>
    refine ⟨⟨le_refl _, le_refl _, le_refl _, le_refl _⟩, ?_, ?_⟩
    · intro m hm
      cases hm
    · intro b hb _
      exact hb
  | cons x rest ih =>
    obtain ⟨h1, h2, h3⟩ := ih (hull acc x)
    have hx : (hull acc x).left ≤ acc.left ∧ (hull acc x).top ≤ acc.top
        ∧ acc.right ≤ (hull acc x).right ∧ acc.bottom ≤ (hull acc x).bottom
        ∧ (hull acc x).left ≤ x.left ∧ (hull acc x).top ≤ x.top
        ∧ x.right ≤ (hull acc x).right ∧ x.bottom ≤ (hull acc x).bottom := by
      simp only [hull]
      refine ⟨min_le_left _ _, min_le_left _ _, le_max_left _ _, le_max_left _ _,
        min_le_right _ _, min_le_right _ _, le_max_right _ _, le_max_right _ _⟩
    simp only [List.foldl]
    refine ⟨by omega, ?_, ?_⟩
    · intro m hm
      rcases List.mem_cons.mp hm with rfl | hm
      · omega
      · exact h2 m hm
    · intro b hb hall
      have hbx := hall x (List.mem_cons_self _ _)
      apply h3 b
      · simp only [hull]
        exact ⟨le_min hb.1 hbx.1, le_min hb.2.1 hbx.2.1, max_le hb.2.2.1 hbx.2.2.1,
          max_le hb.2.2.2 hbx.2.2.2⟩
      · intro m hm
        exact hall m (List.mem_cons_of_mem _ hm)

/-- Inside the `LONG` range the 32-bit wrap changes nothing. -/
theorem wrapLong_of_range (x : Int) (h1 : -2 ^ 31 ≤ x) (h2 : x < 2 ^ 31) : wrapLong x = x := by
  unfold wrapLong
  omega

/-- C3. When the frame-rectangle query gives `frame` and the enumeration gives
`monitors` (each a valid monitor rectangle), `CalcHostWndRect` with policy
Intersected computes the bounding rectangle of exactly the monitors that overlap
`frame`: it contains each of them and lies inside every rectangle that contains
them all. The call fails if and only if that rectangle has non-positive width or
non-positive height, which is the case exactly when no monitor overlaps. -/
theorem intersected_is_union_of_overlapping (env : Env) (hWnd : Nat) (result frame : RECT)
    (monitors : List RECT)
    (hf : env.getWindowFrameRect hWnd = some frame)
    (hm : env.enumDisplayMonitors = some monitors)
    (hv : ∀ m ∈ monitors, validMonitorRect m) :
    (CalcHostWndRect env hWnd MultiMonitorUsage.Intersected result).2
        = boundingRect (monitors.filter (env.checkOverlap frame))
    ∧ ((CalcHostWndRect env hWnd MultiMonitorUsage.Intersected result).1 = false ↔
        ((boundingRect (monitors.filter (env.checkOverlap frame))).right
            - (boundingRect (monitors.filter (env.checkOverlap frame))).left ≤ 0
          ∨ (boundingRect (monitors.filter (env.checkOverlap frame))).bottom
            - (boundingRect (monitors.filter (env.checkOverlap frame))).top ≤ 0))
    ∧ ((CalcHostWndRect env hWnd MultiMonitorUsage.Intersected result).1 = false ↔
        monitors.filter (env.checkOverlap frame) = [])
    ∧ (∀ m ∈ monitors, env.checkOverlap frame m = true →
        (boundingRect (monitors.filter (env.checkOverlap frame))).left ≤ m.left
        ∧ (boundingRect (monitors.filter (env.checkOverlap frame))).top ≤ m.top
        ∧ m.right ≤ (boundingRect (monitors.filter (env.checkOverlap frame))).right
        ∧ m.bottom ≤ (boundingRect (monitors.filter (env.checkOverlap frame))).bottom)
    ∧ (∀ b : RECT, monitors.filter (env.checkOverlap frame) ≠ [] →
        (∀ m ∈ monitors, env.checkOverlap frame m = true →
          b.left ≤ m.left ∧ b.top ≤ m.top ∧ m.right ≤ b.right ∧ m.bottom ≤ b.bottom) →
        b.left ≤ (boundingRect (monitors.filter (env.checkOverlap frame))).left
        ∧ b.top ≤ (boundingRect (monitors.filter (env.checkOverlap frame))).top
        ∧ (boundingRect (monitors.filter (env.checkOverlap frame))).right ≤ b.right
        ∧ (boundingRect (monitors.filter (env.checkOverlap frame))).bottom ≤ b.bottom) := by
  have hl : ∀ m ∈ monitors.filter (env.checkOverlap frame), validMonitorRect m :=
    fun m hmem => hv m (List.mem_filter.mp hmem).1
  obtain ⟨hfold, hvalid⟩ := foldl_UnionRect_zero _ hl
  have hcode : CalcHostWndRect env hWnd MultiMonitorUsage.Intersected result
      = (if wrapLong ((boundingRect (monitors.filter (env.checkOverlap frame))).right
              - (boundingRect (monitors.filter (env.checkOverlap frame))).left) ≤ 0
            ∨ wrapLong ((boundingRect (monitors.filter (env.checkOverlap frame))).bottom
              - (boundingRect (monitors.filter (env.checkOverlap frame))).top) ≤ 0
         then (false, boundingRect (monitors.filter (env.checkOverlap frame)))
         else (true, boundingRect (monitors.filter (env.checkOverlap frame)))) := by
    simp only [CalcHostWndRect, hf, hm, foldl_MonitorEnumProc, hfold]
  rw [hcode]
  generalize hL : monitors.filter (env.checkOverlap frame) = L at *
  cases L with
  | nil =>
    have hb : boundingRect [] = ⟨0, 0, 0, 0⟩ := rfl
    have hw : wrapLong 0 = 0 := by decide
    refine ⟨by simp [hb, hw], by simp [hb, hw], by simp [hb, hw], ?_, ?_⟩
    · intro m hmem hov
      have : m ∈ monitors.filter (env.checkOverlap frame) := List.mem_filter.mpr ⟨hmem, hov⟩
      rw [hL] at this
      cases this
    · intro b hne
      exact absurd rfl hne
  | cons x rest =>
    have hval := hvalid (List.cons_ne_nil _ _)
    have hv' := hval
    unfold validMonitorRect at hv'
    have hw1 : wrapLong ((boundingRect (x :: rest)).right - (boundingRect (x :: rest)).left)
        = (boundingRect (x :: rest)).right - (boundingRect (x :: rest)).left :=
      wrapLong_of_range _ (by omega) (by omega)
    have hw2 : wrapLong ((boundingRect (x :: rest)).bottom - (boundingRect (x :: rest)).top)
        = (boundingRect (x :: rest)).bottom - (boundingRect (x :: rest)).top :=
      wrapLong_of_range _ (by omega) (by omega)
    have hpos : ¬ ((boundingRect (x :: rest)).right - (boundingRect (x :: rest)).left ≤ 0
        ∨ (boundingRect (x :: rest)).bottom - (boundingRect (x :: rest)).top ≤ 0) := by omega
    rw [hw1, hw2, if_neg hpos]
    obtain ⟨hb1, hb2, hb3⟩ := foldl_hull_bounds rest x
    refine ⟨rfl, ⟨fun h => by simp at h, fun h => absurd h hpos⟩, by simp, ?_, ?_⟩
    · intro m hmem hov
      have hin : m ∈ x :: rest := by
        rw [← hL]
        exact List.mem_filter.mpr ⟨hmem, hov⟩
      rcases List.mem_cons.mp hin with rfl | hin
      · exact hb1
      · exact hb2 m hin
    · intro b _ hall
      have hmemL : ∀ m ∈ x :: rest, m ∈ monitors ∧ env.checkOverlap frame m = true := by
        intro m hin
        rw [← hL] at hin
        exact List.mem_filter.mp hin
      apply hb3 b
      · exact hall x (hmemL x (List.mem_cons_self _ _)).1 (hmemL x (List.mem_cons_self _ _)).2
      · intro m hin
        exact hall m (hmemL m (List.mem_cons_of_mem _ hin)).1
          (hmemL m (List.mem_cons_of_mem _ hin)).2

/-! ### Handler registry -/

/-- Emplacing a key larger than every key present appends the entry. -/
theorem mapEmplace_append (k : Nat) (v : WndProcHandler) (l : List (Nat × WndProcHandler))
    (h : ∀ e ∈ l, e.1 < k) : mapEmplace k v l = (l ++ [(k, v)], true) := by
  induction l with
  | nil => rfl
  | cons e rest ih =>
    obtain ⟨k', v'⟩ := e
    have hk : k' < k := h (k', v') (List.mem_cons_self _ _)
    have hrest : ∀ e ∈ rest, e.1 < k := fun e he => h e (List.mem_cons_of_mem _ he)
    have h1 : ¬ k < k' := by omega
    have h2 : ¬ k = k' := by omega
    simp [mapEmplace, h1, h2, ih hrest]

/-- Emplacing a key smaller than every key present puts the entry in front. -/
theorem mapEmplace_front (k : Nat) (v : WndProcHandler) (l : List (Nat × WndProcHandler))
    (h : ∀ e ∈ l, k < e.1) : mapEmplace k v l = ((k, v) :: l, true) := by
  cases l with
  | nil => rfl
  | cons e rest =>
    obtain ⟨k', v'⟩ := e
    have hk : k < k' := h (k', v') (List.mem_cons_self _ _)
    simp [mapEmplace, hk]

/-- Emplacing a key that is not present succeeds. -/
theorem mapEmplace_fresh (k : Nat) (v : WndProcHandler) (l : List (Nat × WndProcHandler))
    (h : ∀ e ∈ l, e.1 ≠ k) : (mapEmplace k v l).2 = true := by
  induction l with
  | nil => rfl
  | cons e rest ih =>
    obtain ⟨k', v'⟩ := e
    have hk : k' ≠ k := h (k', v') (List.mem_cons_self _ _)
    have hrest : ∀ e ∈ rest, e.1 ≠ k := fun e he => h e (List.mem_cons_of_mem _ he)
    by_cases h1 : k < k'
    · simp [mapEmplace, h1]
    · have h2 : ¬ k = k' := fun h => hk h.symm
      simp [mapEmplace, h1, h2, ih hrest]

/-- After an emplace every key is an old key or the new key. -/
theorem mapEmplace_keys (k : Nat) (v : WndProcHandler) (l : List (Nat × WndProcHandler)) :
    ∀ e ∈ (mapEmplace k v l).1, e ∈ l ∨ e.1 = k := by
  induction l with
  | nil =>
    intro e he
    simp [mapEmplace] at he
    exact Or.inr (by rw [he])
  | cons x rest ih =>
    obtain ⟨k', v'⟩ := x
    intro e he
    by_cases h1 : k < k'
    · simp [mapEmplace, h1] at he
      rcases he with rfl | he
      · exact Or.inr rfl
      · exact Or.inl (by simpa using he)
    · by_cases h2 : k = k'
      · simp [mapEmplace, h1, h2] at he
        exact Or.inl (by simpa using he)
      · simp [mapEmplace, h1, h2] at he
        rcases he with rfl | he
        · exact Or.inl (List.mem_cons_self _ _)
        · rcases ih e he with h | h
          · exact Or.inl (List.mem_cons_of_mem _ h)
          · exact Or.inr h

/-- Registering `hs` when the counter stands at `c`, every key present is below `c`
and the counter does not pass the last `UINT` value: the calls return
`c, c+1, ...` and the entries are appended to the map in registration order. -/
theorem registerAll_spec (hs : List WndProcHandler) (a : MagApp) (c : Nat)
    (hnext : a._nextWndProcHandlerID = c % UINT_RANGE)
    (hkeys : ∀ e ∈ a._wndProcHandlers, e.1 < c)
    (hbound : c + hs.length ≤ UINT_RANGE) :
    registerAll hs a =
      (List.range' c hs.length,
       { a with _nextWndProcHandlerID := (c + hs.length) % UINT_RANGE,
                _wndProcHandlers := a._wndProcHandlers ++ (List.range' c hs.length).zip hs }) := by
  induction hs generalizing a c with
  | nil =>
    cases a
    simp_all [registerAll]
  | cons h rest ih =>
    have hlen : (h :: rest).length = rest.length + 1 := rfl
    have hc : c < UINT_RANGE := by omega
    have hmod : c % UINT_RANGE = c := Nat.mod_eq_of_lt hc
    have hreg : RegisterWndProcHandler h a =
        (c, { a with _nextWndProcHandlerID := (c + 1) % UINT_RANGE,
                     _wndProcHandlers := a._wndProcHandlers ++ [(c, h)] }) := by
      simp [RegisterWndProcHandler, hnext, hmod, mapEmplace_append c h _ hkeys]
    have hkeys' : ∀ e ∈ a._wndProcHandlers ++ [(c, h)], e.1 < c + 1 := by
      intro e he
      rcases List.mem_append.mp he with he | he
      · exact Nat.lt_succ_of_lt (hkeys e he)
      · simp at he
        rw [he]
        exact Nat.lt_succ_self c
    have hih := ih { a with _nextWndProcHandlerID := (c + 1) % UINT_RANGE,
                            _wndProcHandlers := a._wndProcHandlers ++ [(c, h)] } (c + 1) rfl hkeys'
      (by omega)
    simp only [registerAll, hreg, hih, hlen, List.range'_succ, List.zip_cons_cons]
    simp [Nat.add_assoc, Nat.add_comm 1]

/-- Registering two lists one after the other. -/
theorem registerAll_append (xs ys : List WndProcHandler) (a : MagApp) :
    registerAll (xs ++ ys) a =
      ((registerAll xs a).1 ++ (registerAll ys (registerAll xs a).2).1,
       (registerAll ys (registerAll xs a).2).2) := by
  induction xs generalizing a with
  | nil => rfl
  | cons h rest ih => simp [registerAll, ih]

/-- The value of `UINT_RANGE`. -/
theorem UINT_RANGE_eq : UINT_RANGE = 4294967296 := by
  norm_num [UINT_RANGE]

/-- The map entries in registration order, walked backwards, are the handlers from
the last registered down to the first, each with its position as id. -/
theorem callHandlers_zip_reverse (hWnd message wParam : Nat) (lParam : Int)
    (hs : List WndProcHandler) (c : Nat) :
    callHandlers hWnd message wParam lParam ((List.range' c hs.length).zip hs).reverse
      = offerDownFrom hWnd message wParam lParam (c + hs.length - 1) hs.reverse := by
  induction hs using List.reverseRecOn with
  | nil => rfl
  | append_singleton l h ih =>
    have hlen : (l ++ [h]).length = l.length + 1 := by simp
    have hz : (List.range' c (l.length + 1)).zip (l ++ [h])
        = (List.range' c l.length).zip l ++ [(c + l.length, h)] := by
      rw [List.range'_concat, List.zip_append (by simp)]
      simp
    rw [hlen, hz, List.reverse_append, List.reverse_append]
    simp only [List.reverse_cons, List.reverse_nil, List.nil_append, List.singleton_append]
    have hsub : c + (l.length + 1) - 1 - 1 = c + l.length - 1 := by omega
    have hsub' : c + (l.length + 1) - 1 = c + l.length := by omega
    cases hres : h hWnd message wParam lParam with
    | none => simp [callHandlers, offerDownFrom, hres, ih, hsub, hsub']
    | some v => simp [callHandlers, offerDownFrom, hres, hsub']

/-- C1 (amended). Start with no handler and the id counter at 1 (the state after a
teardown), and register fewer than 2^32 handlers `H1..Hn` in this order. Then
`Hk` gets id `k`, and for every message `_HostWndProc` calls the handlers in
reverse registration order (`Hn` first), stops at the first that yields a present
result and returns its value, so that no handler registered earlier is called;
when none yields a result it takes the default path. -/
theorem dispatch_in_reverse_registration_order (env : Env) (w : World)
    (hs : List WndProcHandler) (hWnd message wParam : Nat) (lParam : Int)
    (h1 : w.app._nextWndProcHandlerID = 1) (h0 : w.app._wndProcHandlers = [])
    (hn : hs.length < UINT_RANGE) :
    (registerAll hs w.app).1 = List.range' 1 hs.length
    ∧ (_HostWndProc env hWnd message wParam lParam (w.registered hs)).2.events
      = w.events
        ++ (offerInReverseRegistrationOrder hs hWnd message wParam lParam).1.map
            Event.handlerCalled
        ++ (match (offerInReverseRegistrationOrder hs hWnd message wParam lParam).2 with
            | some _ => []
            | none =>
              if message = WM_DESTROY then [Event.postQuitMessage]
              else [Event.defWindowProc hWnd message])
    ∧ (_HostWndProc env hWnd message wParam lParam (w.registered hs)).1
      = (match (offerInReverseRegistrationOrder hs hWnd message wParam lParam).2 with
          | some v => v
          | none =>
            if message = WM_DESTROY then 0
            else env.defWindowProc hWnd message wParam lParam) := by
  have hspec := registerAll_spec hs w.app 1 (by rw [h1, UINT_RANGE_eq]) (by simp [h0])
    (by omega)
  have hcall : callHandlers hWnd message wParam lParam
      (registerAll hs w.app).2._wndProcHandlers.reverse
      = offerInReverseRegistrationOrder hs hWnd message wParam lParam := by
    rw [hspec]
    simp only [h0, List.nil_append]
    rw [callHandlers_zip_reverse]
    simp [offerInReverseRegistrationOrder]
  refine ⟨by rw [hspec], ?_, ?_⟩
  · simp only [_HostWndProc, World.registered, hcall]
    cases hres : (offerInReverseRegistrationOrder hs hWnd message wParam lParam).2 with
    | some v => simp
    | none =>
      by_cases hm : message = WM_DESTROY
      · simp [hm]
      · simp [hm, World.emit]
  · simp only [_HostWndProc, World.registered, hcall]
    cases hres : (offerInReverseRegistrationOrder hs hWnd message wParam lParam).2 with
    | some v => simp
    | none =>
      by_cases hm : message = WM_DESTROY
      · simp [hm]
      · simp [hm]

/-- Registration number 2^32 after a teardown: the 32-bit counter has wrapped to 0,
so the handler gets id 0 and its entry is the first of the map, not the last. -/
theorem registerAll_wrap (ps : List WndProcHandler) (h5 h7 : WndProcHandler) (a : MagApp)
    (hps : ps.length = UINT_RANGE - 2)
    (h1 : a._nextWndProcHandlerID = 1) (h0 : a._wndProcHandlers = []) :
    (registerAll (ps ++ [h5, h7]) a).1 = List.range' 1 (UINT_RANGE - 1) ++ [0]
    ∧ (registerAll (ps ++ [h5, h7]) a).2._wndProcHandlers.reverse
        = (UINT_RANGE - 1, h5) :: ((List.range' 1 ps.length).zip ps).reverse ++ [(0, h7)] := by
  have hR := UINT_RANGE_eq
  have hlen : (ps ++ [h5]).length = UINT_RANGE - 1 := by
    rw [List.length_append, hps]
    simp only [List.length_singleton]
    omega
  have hsplit : ps ++ [h5, h7] = (ps ++ [h5]) ++ [h7] := by simp
  have hspec := registerAll_spec (ps ++ [h5]) a 1 (by rw [h1, hR]) (by simp [h0])
    (by omega)
  have hzero : (1 + (ps ++ [h5]).length) % UINT_RANGE = 0 := by
    rw [hlen, hR]
  have hfront : ∀ e ∈ (List.range' 1 (ps ++ [h5]).length).zip (ps ++ [h5]), 0 < e.1 := by
    intro e he
    have hmem := (List.of_mem_zip he).1
    rw [List.mem_range'_1] at hmem
    omega
  have hz : (List.range' 1 (ps.length + 1)).zip (ps ++ [h5])
      = (List.range' 1 ps.length).zip ps ++ [(1 + ps.length, h5)] := by
    rw [List.range'_concat, List.zip_append (by simp)]
    simp
  have hplus : (ps ++ [h5]).length = ps.length + 1 := by simp
  have hlast : 1 + ps.length = UINT_RANGE - 1 := by omega
  rw [hsplit, registerAll_append, hspec]
  simp only [registerAll, RegisterWndProcHandler, hzero, h0, List.nil_append,
    mapEmplace_front 0 h7 _ hfront]
  refine ⟨by simp [hlen], ?_⟩
  simp only [if_true, List.reverse_cons]
  rw [hplus, hz, List.reverse_append, hlast]
  simp

/-- The dispatch after registration number 2^32, for any list `ps` of 2^32 - 2
handlers registered before the two answering ones. -/
theorem dispatch_after_wrap (ps : List WndProcHandler) (hps : ps.length = UINT_RANGE - 2)
    (env : Env) (w : World) (h1 : w.app._nextWndProcHandlerID = 1)
    (h0 : w.app._wndProcHandlers = []) (hev : w.events = []) :
    offerInReverseRegistrationOrder (ps ++ [answerHandler 5, answerHandler 7]) 100 1024 0 0
        = ([UINT_RANGE], some 7)
    ∧ (registerAll (ps ++ [answerHandler 5, answerHandler 7]) w.app).1
        = List.range' 1 (UINT_RANGE - 1) ++ [0]
    ∧ (_HostWndProc env 100 1024 0 0
        (w.registered (ps ++ [answerHandler 5, answerHandler 7]))).1 = 5
    ∧ (_HostWndProc env 100 1024 0 0
        (w.registered (ps ++ [answerHandler 5, answerHandler 7]))).2.events
        = [Event.handlerCalled (UINT_RANGE - 1)] := by
  have hR := UINT_RANGE_eq
  have hw := registerAll_wrap ps (answerHandler 5) (answerHandler 7) w.app hps h1 h0
  refine ⟨?_, hw.1, ?_, ?_⟩
  · have hl : (ps ++ [answerHandler 5, answerHandler 7]).length = UINT_RANGE := by
      simp only [List.length_append, hps, List.length_cons, List.length_nil]
      omega
    have hrev : (ps ++ [answerHandler 5, answerHandler 7]).reverse
        = answerHandler 7 :: answerHandler 5 :: ps.reverse := by
      simp only [List.reverse_append, List.reverse_cons, List.reverse_nil, List.nil_append,
        List.singleton_append, List.cons_append]
    simp only [offerInReverseRegistrationOrder, hl, hrev, offerDownFrom, answerHandler]
  · simp only [_HostWndProc, World.registered, hw.2, List.cons_append, callHandlers,
      answerHandler]
  · simp only [_HostWndProc, World.registered, hw.2, List.cons_append, callHandlers,
      answerHandler, hev,
      List.map_cons, List.map_nil, List.nil_append]

/-- C1 (counterexample). After a teardown, 2^32 handlers are registered: all pass,
except that the last but one answers 5 and the last answers 7. In reverse
registration order the last handler would be called first and 7 returned. The
code gives the last handler id 0, calls the last but one (id 2^32 - 1) first and
returns its 5; the last registered handler is never called. -/
theorem dispatch_order_breaks_at_wrap :
    offerInReverseRegistrationOrder wrapHandlers 100 1024 0 0 = ([UINT_RANGE], some 7)
    ∧ (registerAll wrapHandlers teardownWorld.app).1 = List.range' 1 (UINT_RANGE - 1) ++ [0]
    ∧ (_HostWndProc (sampleEnv 100 200) 100 1024 0 0
        (teardownWorld.registered wrapHandlers)).1 = 5
    ∧ (_HostWndProc (sampleEnv 100 200) 100 1024 0 0
        (teardownWorld.registered wrapHandlers)).2.events
        = [Event.handlerCalled (UINT_RANGE - 1)] := by
  unfold wrapHandlers
  exact dispatch_after_wrap (List.replicate (UINT_RANGE - 2) passHandler)
    (List.length_replicate _ _) (sampleEnv 100 200) teardownWorld
    (OnQuit_fields _).2.2.2.2.2.2.2.1 (OnQuit_fields _).2.2.2.2.2.2.1
    (by unfold teardownWorld; rw [OnQuit_events]; rfl)

/-- Erasing a key only removes entries. -/
theorem mapErase_subset (k : Nat) (l : List (Nat × WndProcHandler)) :
    ∀ e ∈ mapErase k l, e ∈ l := by
  intro e he
  exact (List.mem_filter.mp he).1

/-- The ids handed out by a sequence of registry calls. The counter stands at `c`
(registration number `c` since the teardown is next), every key in the map was
handed out by an earlier registration, and the sequence takes the count of
registrations to at most 2^32: then the calls return `c, c+1, ...` modulo 2^32. -/
theorem runOps_ids (ops : List RegistryOp) (a : MagApp) (c : Nat) (hc : 1 ≤ c)
    (hnext : a._nextWndProcHandlerID = c % UINT_RANGE)
    (hkeys : ∀ e ∈ a._wndProcHandlers, ∃ j, 1 ≤ j ∧ j < c ∧ e.1 = j % UINT_RANGE)
    (hbound : c + countRegister ops ≤ UINT_RANGE + 1) :
    (runOps ops a).1 = (List.range' c (countRegister ops)).map (fun j => j % UINT_RANGE) := by
  have hR := UINT_RANGE_eq
  induction ops generalizing a c with
  | nil => rfl
  | cons op rest ih =>
    cases op with
    | register h =>
      have hcount : countRegister (RegistryOp.register h :: rest) = countRegister rest + 1 := rfl
      rw [hcount] at hbound
      have hfresh : ∀ e ∈ a._wndProcHandlers, e.1 ≠ c % UINT_RANGE := by
        intro e he
        obtain ⟨j, hj1, hj2, hj3⟩ := hkeys e he
        rw [hR] at hbound hj3 ⊢
        omega
      have hok := mapEmplace_fresh (c % UINT_RANGE) h a._wndProcHandlers hfresh
      have hkeys' : ∀ e ∈ (mapEmplace (c % UINT_RANGE) h a._wndProcHandlers).1,
          ∃ j, 1 ≤ j ∧ j < c + 1 ∧ e.1 = j % UINT_RANGE := by
        intro e he
        rcases mapEmplace_keys _ _ _ e he with hold | hnew
        · obtain ⟨j, hj1, hj2, hj3⟩ := hkeys e hold
          exact ⟨j, hj1, by omega, hj3⟩
        · exact ⟨c, hc, by omega, hnew⟩
      have hnext' : (c % UINT_RANGE + 1) % UINT_RANGE = (c + 1) % UINT_RANGE := by
        rw [hR]
        omega
      have hih := ih
        { a with _nextWndProcHandlerID := (a._nextWndProcHandlerID + 1) % UINT_RANGE,
                 _wndProcHandlers := (mapEmplace a._nextWndProcHandlerID h a._wndProcHandlers).1 }
        (c + 1) (by omega) (by simp only [hnext, hnext'])
        (by simpa only [hnext] using hkeys') (by omega)
      simp only [runOps, RegisterWndProcHandler, hcount, List.range'_succ, List.map_cons]
      rw [hih]
      simp [hnext, hok]
    | unregister id =>
      have hcount : countRegister (RegistryOp.unregister id :: rest) = countRegister rest := rfl
      rw [hcount] at hbound ⊢
      exact ih (UnregisterWndProcHandler id a) c hc hnext
        (fun e he => hkeys e (mapErase_subset id _ e he)) hbound

/-- C2 (amended). Start with no handler and the id counter at 1 (the state after a
teardown) and make any sequence of register and unregister calls with at most
2^32 register calls: the ids returned are `1, 2, ...` taken modulo 2^32, no two
of them equal, whatever was unregistered in between. The first id handed out
after a teardown is 1. -/
theorem ids_distinct_up_to_wrap (a : MagApp) (ops : List RegistryOp)
    (h1 : a._nextWndProcHandlerID = 1) (h0 : a._wndProcHandlers = [])
    (hk : countRegister ops ≤ UINT_RANGE) :
    (runOps ops a).1 = (List.range' 1 (countRegister ops)).map (fun j => j % UINT_RANGE)
    ∧ (runOps ops a).1.Nodup
    ∧ ∀ (w : World) (h : WndProcHandler), (RegisterWndProcHandler h (_OnQuit w).app).1 = 1 := by
  have hR := UINT_RANGE_eq
  have hids := runOps_ids ops a 1 (le_refl 1) (by rw [h1, hR]) (by simp [h0]) (by omega)
  refine ⟨hids, ?_, ?_⟩
  · rw [hids]
    apply List.Nodup.map_on _ (List.nodup_range' 1 _)
    intro x hx y hy hxy
    rw [List.mem_range'_1] at hx hy
    rw [hR] at hk
    simp only [hR] at hxy
    omega
  · intro w h
    have hf := OnQuit_fields w
    simp [RegisterWndProcHandler, hf.2.2.2.2.2.2.1, hf.2.2.2.2.2.2.2.1, mapEmplace]

/-- Registering a handler and unregistering it at once, `k` times over, on an empty
map: the ids run on, and the map is empty again in the state `a1` reached. -/
theorem runOps_churn (h : WndProcHandler) (k c : Nat) (rest : List RegistryOp) (a : MagApp)
    (hnext : a._nextWndProcHandlerID = c % UINT_RANGE) (h0 : a._wndProcHandlers = []) :
    ∃ a1 : MagApp, a1._nextWndProcHandlerID = (c + k) % UINT_RANGE ∧ a1._wndProcHandlers = []
      ∧ (runOps (churnOps h c k ++ rest) a).1
        = (List.range' c k).map (fun j => j % UINT_RANGE) ++ (runOps rest a1).1 := by
  have hR := UINT_RANGE_eq
  induction k generalizing a c with
  | zero => exact ⟨a, by simpa using hnext, h0, by simp [churnOps]⟩
  | succ k ih =>
    have hnext' : (c % UINT_RANGE + 1) % UINT_RANGE = (c + 1) % UINT_RANGE := by
      rw [hR]
      omega
    obtain ⟨a1, ha1, ha2, ha3⟩ := ih (c + 1)
      { a with _nextWndProcHandlerID := (c + 1) % UINT_RANGE, _wndProcHandlers := [] } rfl rfl
    refine ⟨a1, by rw [ha1]; congr 1; omega, ha2, ?_⟩
    simp only [churnOps, List.cons_append, runOps, RegisterWndProcHandler,
      UnregisterWndProcHandler, hnext, h0, mapEmplace, mapErase, hnext', List.range'_succ,
      List.map_cons]
    simp only [List.filter, ne_eq, not_true_eq_false, decide_False, if_true]
    simp only [List.cons_append, List.cons.injEq, true_and]
    simpa using ha3

/-- After 2^32 register-and-unregister rounds the counter is back at 1, and the
next registration returns 1 again. -/
theorem ids_after_churn (k : Nat) (hk : k = UINT_RANGE) (a : MagApp)
    (h1 : a._nextWndProcHandlerID = 1) (h0 : a._wndProcHandlers = []) :
    (runOps (churnOps passHandler 1 k ++ [RegistryOp.register passHandler]) a).1
      = 1 :: ((List.range' 2 (k - 1)).map (fun j => j % UINT_RANGE) ++ [1]) := by
  have hR := UINT_RANGE_eq
  obtain ⟨a1, ha1, ha2, ha3⟩ := runOps_churn passHandler k 1 [RegistryOp.register passHandler] a
    (by rw [h1, hR]) h0
  have hlast : (runOps [RegistryOp.register passHandler] a1).1 = [1] := by
    have hk1 : (1 + k) % UINT_RANGE = 1 := by
      rw [hk, hR]
    simp [runOps, RegisterWndProcHandler, ha1, ha2, mapEmplace, hk1]
  have hsplit : List.range' 1 k = 1 :: List.range' 2 (k - 1) := by
    have hk' : k = (k - 1) + 1 := by omega
    conv_lhs => rw [hk']
    rw [List.range'_succ]
  have hone : 1 % UINT_RANGE = 1 := by
    rw [hR]
  rw [ha3, hlast, hsplit]
  simp only [List.map_cons, hone, List.cons_append]

/-- C2 (counterexample). After a teardown a handler is registered (id 1) and
unregistered, this 2^32 times over with the id of the moment, and then a handler
is registered once more: that call returns 1, the id the first call returned. -/
theorem id_reused_after_wrap :
    (runOps (churnOps passHandler 1 UINT_RANGE ++ [RegistryOp.register passHandler])
        teardownWorld.app).1.head? = some 1
    ∧ (runOps (churnOps passHandler 1 UINT_RANGE ++ [RegistryOp.register passHandler])
        teardownWorld.app).1.getLast? = some 1
    ∧ ¬ (runOps (churnOps passHandler 1 UINT_RANGE ++ [RegistryOp.register passHandler])
        teardownWorld.app).1.Nodup := by
  have h := ids_after_churn UINT_RANGE rfl teardownWorld.app
    (OnQuit_fields _).2.2.2.2.2.2.2.1 (OnQuit_fields _).2.2.2.2.2.2.1
  rw [h]
  generalize (List.range' 2 (UINT_RANGE - 1)).map (fun j => j % UINT_RANGE) = L
  refine ⟨rfl, ?_, ?_⟩
  · rw [← List.cons_append, List.getLast?_append]
    rfl
  · simp

/-! ### Failed initialization drains to the teardown -/

/-- Nothing happening is a drain with no event. -/
theorem DrainsWith.refl (w : World) : DrainsWith [] w w :=
  ⟨rfl, id, fun _ h => h, by simp, by simp⟩

/-- Two drains in a row are a drain. -/
theorem DrainsWith.trans {e1 e2 : List Event} {w w1 w2 : World}
    (h1 : DrainsWith e1 w w1) (h2 : DrainsWith e2 w1 w2) : DrainsWith (e1 ++ e2) w w2 := by
  obtain ⟨a1, q1, l1, ev1, d1⟩ := h1
  obtain ⟨a2, q2, l2, ev2, d2⟩ := h2
  refine ⟨a2.trans a1, fun h => q2 (q1 h), fun x h => l2 x (l1 x h), ?_, ?_⟩
  · rw [ev2, ev1, List.append_assoc]
  · intro e he
    rcases List.mem_append.mp he with he | he
    · exact d1 e he
    · exact d2 e he

/-- The host window procedure is a drain that leaves the windows alone. -/
theorem HostWndProc_drains (env : Env) (hWnd message wParam : Nat) (lParam : Int)
    (w : World) :
    ∃ extra, DrainsWith extra w (_HostWndProc env hWnd message wParam lParam w).2
      ∧ (_HostWndProc env hWnd message wParam lParam w).2.windows = w.windows := by
  have hall : ∀ e ∈ (callHandlers hWnd message wParam lParam
      w.app._wndProcHandlers.reverse).1.map Event.handlerCalled, e.isDrainEvent = true := by
    intro e he
    obtain ⟨id, _, rfl⟩ := List.mem_map.mp he
    rfl
  simp only [_HostWndProc]
  cases hres : (callHandlers hWnd message wParam lParam w.app._wndProcHandlers.reverse).2 with
  | some v =>
    exact ⟨(callHandlers hWnd message wParam lParam
      w.app._wndProcHandlers.reverse).1.map Event.handlerCalled,
      ⟨rfl, id, fun _ h => h, rfl, hall⟩, rfl⟩
  | none =>
    by_cases hm : message = WM_DESTROY
    · refine ⟨(callHandlers hWnd message wParam lParam
        w.app._wndProcHandlers.reverse).1.map Event.handlerCalled ++ [Event.postQuitMessage],
        ⟨?_, ?_, ?_, ?_, ?_⟩, ?_⟩
      · simp [hm]
      · simp [hm]
      · simp [hm]
      · simp [hm]
      · intro e he
        rcases List.mem_append.mp he with he | he
        · exact hall e he
        · simp at he
          rw [he]
          rfl
      · simp [hm]
    · refine ⟨(callHandlers hWnd message wParam lParam
        w.app._wndProcHandlers.reverse).1.map Event.handlerCalled
          ++ [Event.defWindowProc hWnd message],
        ⟨?_, ?_, ?_, ?_, ?_⟩, ?_⟩
      · simp [hm, World.emit]
      · simp [hm, World.emit]
      · simp [hm, World.emit]
      · simp [hm, World.emit]
      · intro e he
        rcases List.mem_append.mp he with he | he
        · exact hall e he
        · simp at he
          rw [he]
          rfl
      · simp [hm, World.emit]

/-- Handlers that all pass a message on are all called and give no result. -/
theorem callHandlers_pass (hWnd message wParam : Nat) (lParam : Int)
    (l : List (Nat × WndProcHandler))
    (hpass : ∀ e ∈ l, e.2 hWnd message wParam lParam = none) :
    (callHandlers hWnd message wParam lParam l).2 = none := by
  induction l with
  | nil => rfl
  | cons e rest ih =>
    obtain ⟨id, h⟩ := e
    have hh : h hWnd message wParam lParam = none := hpass (id, h) (List.mem_cons_self _ _)
    simp only [callHandlers, hh]
    exact ih (fun e he => hpass e (List.mem_cons_of_mem _ he))

/-- When no handler intercepts `WM_DESTROY`, the host window procedure posts the quit
message. -/
theorem HostWndProc_destroy_posts_quit (env : Env) (h : Nat) (w : World)
    (hpass : ∀ e ∈ w.app._wndProcHandlers, e.2 h WM_DESTROY 0 0 = none) :
    (_HostWndProc env h WM_DESTROY 0 0 w).2.quitPosted = true
    ∧ ∃ pre, (_HostWndProc env h WM_DESTROY 0 0 w).2.events
        = w.events ++ (pre ++ [Event.postQuitMessage]) := by
  have hnone := callHandlers_pass h WM_DESTROY 0 0 w.app._wndProcHandlers.reverse
    (fun e he => hpass e (List.mem_reverse.mp he))
  simp only [_HostWndProc, hnone, if_true]
  exact ⟨trivial, (callHandlers h WM_DESTROY 0 0 w.app._wndProcHandlers.reverse).1.map
    Event.handlerCalled, by simp⟩

/-- The flip-suppression window procedure is a drain that leaves the windows alone. -/
theorem DDFWndProc_drains (env : Env) (hWnd message wParam : Nat) (lParam : Int)
    (w : World) :
    ∃ extra, DrainsWith extra w (DDFWndProc env hWnd message wParam lParam w).2
      ∧ (DDFWndProc env hWnd message wParam lParam w).2.windows = w.windows := by
  unfold DDFWndProc
  by_cases hm : message = WM_DESTROY
  · exact ⟨[], by simpa [hm] using DrainsWith.refl w, by simp [hm]⟩
  · refine ⟨[Event.defWindowProc hWnd message], ⟨?_, ?_, ?_, ?_, ?_⟩, ?_⟩
    · simp [hm, World.emit]
    · simp [hm, World.emit]
    · simp [hm, World.emit]
    · simp [hm, World.emit]
    · intro e he
      simp at he
      rw [he]
      rfl
    · simp [hm, World.emit]

/-- Looking a handle up after its entries have been filtered out finds nothing, and
other handles are found as before. -/
theorem lookup_filter_ne (h x : Nat) (l : List (Nat × WndClass)) :
    (l.filter (fun e => e.1 ≠ h)).lookup h = none
    ∧ (x ≠ h → (l.filter (fun e => e.1 ≠ h)).lookup x = l.lookup x)
    ∧ (l.lookup x = none → (l.filter (fun e => e.1 ≠ h)).lookup x = none) := by
  induction l with
  | nil => simp
  | cons e rest ih =>
    obtain ⟨k, c⟩ := e
    obtain ⟨ih1, ih2, ih3⟩ := ih
    by_cases hk : k = h
    · subst hk
      refine ⟨by simpa [List.filter] using ih1, ?_, ?_⟩
      · intro hx
        have hxk : (x == k) = false := by simpa using hx
        simp only [List.filter, ne_eq, not_true_eq_false, decide_False, List.lookup, hxk]
        exact ih2 hx
      · intro hnone
        by_cases hxk : x = k
        · subst hxk
          simp [List.lookup] at hnone
        · have hxk' : (x == k) = false := by simpa using hxk
          simp only [List.lookup, hxk'] at hnone
          simp only [List.filter, ne_eq, not_true_eq_false, decide_False]
          exact ih3 hnone
    · have hkeep : decide ((k, c).1 ≠ h) = true := by simpa using hk
      have hhk : (h == k) = false := by simpa using (fun h' : h = k => hk h'.symm)
      refine ⟨?_, ?_, ?_⟩
      · simp only [List.filter, hkeep, List.lookup, hhk]
        exact ih1
      · intro hx
        by_cases hxk : x = k
        · subst hxk
          simp [List.filter, hkeep, List.lookup]
        · have hxk' : (x == k) = false := by simpa using hxk
          simp only [List.filter, hkeep, List.lookup, hxk']
          exact ih2 hx
      · intro hnone
        by_cases hxk : x = k
        · subst hxk
          simp [List.lookup] at hnone
        · have hxk' : (x == k) = false := by simpa using hxk
          simp only [List.lookup, hxk'] at hnone
          simp only [List.filter, hkeep, List.lookup, hxk']
          exact ih3 hnone

/-- Logging one drain event is a drain. -/
theorem DrainsWith.emit (w : World) (e : Event) (he : e.isDrainEvent = true) :
    DrainsWith [e] w (w.emit e) :=
  ⟨rfl, id, fun _ h => h, rfl, by simpa using he⟩

/-- `DestroyWindow` is a drain that logs the call; afterwards the handle names no
live window, and the other handles name what they named before. -/
theorem DestroyWindow_drains (env : Env) (h : Nat) (w : World) :
    ∃ extra, DrainsWith extra w (DestroyWindow env h w)
      ∧ Event.destroyWindow h ∈ extra
      ∧ (DestroyWindow env h w).windows.lookup h = none
      ∧ ∀ x, x ≠ h → (DestroyWindow env h w).windows.lookup x = w.windows.lookup x := by
  have hemit := DrainsWith.emit w (Event.destroyWindow h) rfl
  unfold DestroyWindow
  cases hlk : w.windows.lookup h with
  | none =>
    exact ⟨_, hemit, by simp, hlk, fun _ _ => rfl⟩
  | some cls =>
    cases cls with
    | host =>
      obtain ⟨e2, hd, hwin⟩ := HostWndProc_drains env h WM_DESTROY 0 0
        (w.emit (Event.destroyWindow h))
      have hwin' : (_HostWndProc env h WM_DESTROY 0 0 (w.emit (Event.destroyWindow h))).2.windows
          = w.windows := hwin
      have hfin : DrainsWith []
          (_HostWndProc env h WM_DESTROY 0 0 (w.emit (Event.destroyWindow h))).2
          { (_HostWndProc env h WM_DESTROY 0 0 (w.emit (Event.destroyWindow h))).2 with
            windows := (_HostWndProc env h WM_DESTROY 0 0
              (w.emit (Event.destroyWindow h))).2.windows.filter (fun e => e.1 ≠ h) } :=
        ⟨rfl, id, fun x hx => (lookup_filter_ne h x _).2.2 hx, by simp, by simp⟩
      refine ⟨_, (hemit.trans hd).trans hfin, by simp, ?_, ?_⟩
      · exact (lookup_filter_ne h h _).1
      · intro x hx
        simp only [hwin']
        exact (lookup_filter_ne h x _).2.1 hx
    | ddf =>
      obtain ⟨e2, hd, hwin⟩ := DDFWndProc_drains env h WM_DESTROY 0 0
        (w.emit (Event.destroyWindow h))
      have hwin' : (DDFWndProc env h WM_DESTROY 0 0 (w.emit (Event.destroyWindow h))).2.windows
          = w.windows := hwin
      have hfin : DrainsWith []
          (DDFWndProc env h WM_DESTROY 0 0 (w.emit (Event.destroyWindow h))).2
          { (DDFWndProc env h WM_DESTROY 0 0 (w.emit (Event.destroyWindow h))).2 with
            windows := (DDFWndProc env h WM_DESTROY 0 0
              (w.emit (Event.destroyWindow h))).2.windows.filter (fun e => e.1 ≠ h) } :=
        ⟨rfl, id, fun x hx => (lookup_filter_ne h x _).2.2 hx, by simp, by simp⟩
      refine ⟨_, (hemit.trans hd).trans hfin, by simp, ?_, ?_⟩
      · exact (lookup_filter_ne h h _).1
      · intro x hx
        simp only [hwin']
        exact (lookup_filter_ne h x _).2.1 hx

/-- Destroying the live host window when no handler intercepts `WM_DESTROY` posts the
quit message. -/
theorem DestroyWindow_host_posts_quit (env : Env) (h : Nat) (w : World)
    (hlive : w.windows.lookup h = some WndClass.host)
    (hpass : ∀ e ∈ w.app._wndProcHandlers, e.2 h WM_DESTROY 0 0 = none) :
    (DestroyWindow env h w).quitPosted = true
    ∧ ∃ pre, (DestroyWindow env h w).events = w.events ++ (pre ++ [Event.postQuitMessage]) := by
  obtain ⟨hq, pre, hev⟩ := HostWndProc_destroy_posts_quit env h
    (w.emit (Event.destroyWindow h)) hpass
  simp only [DestroyWindow, hlive]
  refine ⟨hq, Event.destroyWindow h :: pre, ?_⟩
  show (_HostWndProc env h WM_DESTROY 0 0 (w.emit (Event.destroyWindow h))).2.events = _
  rw [hev]
  simp [World.emit]

/-- `Stop()` written out. -/
theorem Stop_eq (env : Env) (w : World) :
    Stop env w =
      if (if w.app._hwndDDF ≠ 0 then DestroyWindow env w.app._hwndDDF w else w).app._hwndHost ≠ 0
      then DestroyWindow env
        (if w.app._hwndDDF ≠ 0 then DestroyWindow env w.app._hwndDDF w else w).app._hwndHost
        (if w.app._hwndDDF ≠ 0 then DestroyWindow env w.app._hwndDDF w else w)
      else (if w.app._hwndDDF ≠ 0 then DestroyWindow env w.app._hwndDDF w else w) := rfl

/-- `Stop()` is a drain. -/
theorem Stop_drains (env : Env) (w : World) : ∃ extra, DrainsWith extra w (Stop env w) := by
  rw [Stop_eq]
  by_cases hd : w.app._hwndDDF ≠ 0
  · obtain ⟨e1, h1, _⟩ := DestroyWindow_drains env w.app._hwndDDF w
    rw [if_pos hd]
    by_cases hh : (DestroyWindow env w.app._hwndDDF w).app._hwndHost ≠ 0
    · obtain ⟨e2, h2, _⟩ := DestroyWindow_drains env
        (DestroyWindow env w.app._hwndDDF w).app._hwndHost (DestroyWindow env w.app._hwndDDF w)
      rw [if_pos hh]
      exact ⟨_, h1.trans h2⟩
    · rw [if_neg hh]
      exact ⟨_, h1⟩
  · rw [if_neg hd]
    by_cases hh : w.app._hwndHost ≠ 0
    · obtain ⟨e2, h2, _⟩ := DestroyWindow_drains env w.app._hwndHost w
      rw [if_pos hh]
      exact ⟨_, h2⟩
    · rw [if_neg hh]
      exact ⟨_, DrainsWith.refl w⟩

/-- `DispatchMessage` is a drain. -/
theorem DispatchMessage_drains (env : Env) (m : MSG) (w : World) :
    ∃ extra, DrainsWith extra w (DispatchMessage env m w) := by
  unfold DispatchMessage
  cases hlk : w.windows.lookup m.hwnd with
  | none => exact ⟨_, DrainsWith.refl w⟩
  | some cls =>
    cases cls with
    | host =>
      obtain ⟨e, hd, _⟩ := HostWndProc_drains env m.hwnd m.message m.wParam m.lParam w
      exact ⟨e, hd⟩
    | ddf =>
      obtain ⟨e, hd, _⟩ := DDFWndProc_drains env m.hwnd m.message m.wParam m.lParam w
      exact ⟨e, hd⟩

/-- With the host window live and no handler intercepting `WM_DESTROY`, `Stop()`
destroys the host window and thereby posts the quit message. -/
theorem Stop_posts_quit (env : Env) (w : World) (h : Nat)
    (hhost : w.app._hwndHost = h) (hne : h ≠ 0)
    (hlive : w.windows.lookup h = some WndClass.host)
    (hpass : ∀ e ∈ w.app._wndProcHandlers, e.2 h WM_DESTROY 0 0 = none) :
    ∃ extra, DrainsWith extra w (Stop env w)
      ∧ (Stop env w).quitPosted = true
      ∧ Event.destroyWindow h ∈ extra ∧ Event.postQuitMessage ∈ extra
      ∧ (Stop env w).windows.lookup h = none := by
  rw [Stop_eq]
  by_cases hd : w.app._hwndDDF ≠ 0
  · rw [if_pos hd]
    obtain ⟨e1, h1, hm1, hl1, hx1⟩ := DestroyWindow_drains env w.app._hwndDDF w
    have happ : (DestroyWindow env w.app._hwndDDF w).app = w.app := h1.1
    have hh : (DestroyWindow env w.app._hwndDDF w).app._hwndHost ≠ 0 := by
      rw [happ, hhost]
      exact hne
    rw [if_pos hh, happ, hhost]
    obtain ⟨e2, h2, hm2, hl2, _⟩ := DestroyWindow_drains env h
      (DestroyWindow env w.app._hwndDDF w)
    by_cases hdh : w.app._hwndDDF = h
    · obtain ⟨hq, pre, hev⟩ := DestroyWindow_host_posts_quit env h w hlive hpass
      rw [hdh] at h1 h2 hm1 hl2 ⊢
      have he1 : e1 = pre ++ [Event.postQuitMessage] :=
        List.append_cancel_left (h1.2.2.2.1.symm.trans hev)
      refine ⟨e1 ++ e2, h1.trans h2, h2.2.1 hq, ?_, ?_, hl2⟩
      · exact List.mem_append_left _ hm1
      · rw [he1]
        simp
    · have hlive1 : (DestroyWindow env w.app._hwndDDF w).windows.lookup h
          = some WndClass.host := by
        rw [hx1 h (fun hc => hdh hc.symm)]
        exact hlive
      have hpass1 : ∀ e ∈ (DestroyWindow env w.app._hwndDDF w).app._wndProcHandlers,
          e.2 h WM_DESTROY 0 0 = none := by
        rw [happ]
        exact hpass
      obtain ⟨hq, pre, hev⟩ := DestroyWindow_host_posts_quit env h
        (DestroyWindow env w.app._hwndDDF w) hlive1 hpass1
      have he2 : e2 = pre ++ [Event.postQuitMessage] :=
        List.append_cancel_left (h2.2.2.2.1.symm.trans hev)
      refine ⟨e1 ++ e2, h1.trans h2, hq, ?_, ?_, hl2⟩
      · exact List.mem_append_right _ hm2
      · rw [he2]
        simp
  · rw [if_neg hd]
    have hh : w.app._hwndHost ≠ 0 := by
      rw [hhost]
      exact hne
    rw [if_pos hh, hhost]
    obtain ⟨e2, h2, hm2, hl2, _⟩ := DestroyWindow_drains env h w
    obtain ⟨hq, pre, hev⟩ := DestroyWindow_host_posts_quit env h w hlive hpass
    have he2 : e2 = pre ++ [Event.postQuitMessage] :=
      List.append_cancel_left (h2.2.2.2.1.symm.trans hev)
    refine ⟨e2, h2, hq, hm2, ?_, hl2⟩
    rw [he2]
    simp

/-- Once the quit message is posted, the message pump of the current iteration ends
in `_OnQuit`, whatever it retrieves before. -/
theorem pumpMessages_quits (env : Env) (batch : List LoopInput) (w : World)
    (hq : w.quitPosted = true) :
    ∃ w0 extra, pumpMessages env batch w = (true, _OnQuit w0)
      ∧ w0.app = w.app
      ∧ (∀ x, w.windows.lookup x = none → w0.windows.lookup x = none)
      ∧ w0.events = w.events ++ extra ∧ ∀ e ∈ extra, e.isDrainEvent = true := by
  induction batch generalizing w with
  | nil =>
    refine ⟨{ w with quitPosted := false }, [], ?_, rfl, fun _ h => h, by simp, by simp⟩
    simp [pumpMessages, hq]
  | cons input rest ih =>
    cases input with
    | message m =>
      by_cases hm : m.message = WM_QUIT
      · refine ⟨w, [], ?_, rfl, fun _ h => h, by simp, by simp⟩
        simp [pumpMessages, hm]
      · obtain ⟨e1, h1⟩ := DispatchMessage_drains env m w
        obtain ⟨w0, e2, hp, ha, hl, hev, hd⟩ := ih (DispatchMessage env m w) (h1.2.1 hq)
        refine ⟨w0, e1 ++ e2, ?_, ha.trans h1.1, fun x hx => hl x (h1.2.2.1 x hx), ?_, ?_⟩
        · simp only [pumpMessages, hm, if_false]
          exact hp
        · rw [hev, h1.2.2.2.1, List.append_assoc]
        · intro e he
          rcases List.mem_append.mp he with he | he
          · exact h1.2.2.2.2 e he
          · exact hd e he
    | stopCall =>
      obtain ⟨e1, h1⟩ := Stop_drains env w
      obtain ⟨w0, e2, hp, ha, hl, hev, hd⟩ := ih (Stop env w) (h1.2.1 hq)
      refine ⟨w0, e1 ++ e2, ?_, ha.trans h1.1, fun x hx => hl x (h1.2.2.1 x hx), ?_, ?_⟩
      · simp only [pumpMessages]
        exact hp
      · rw [hev, h1.2.2.2.1, List.append_assoc]
      · intro e he
        rcases List.mem_append.mp he with he | he
        · exact h1.2.2.2.2 e he
        · exact hd e he

/-- The reference-count updates of `assignSettings` leave every property of every
settings object as it was. -/
theorem assignSettings_flags (settings q : Nat) (w : World) :
    ((assignSettings settings w).heap q).captureMode = (w.heap q).captureMode
    ∧ ((assignSettings settings w).heap q).multiMonitorUsage = (w.heap q).multiMonitorUsage
    ∧ ((assignSettings settings w).heap q).isSimulateExclusiveFullscreen
        = (w.heap q).isSimulateExclusiveFullscreen
    ∧ ((assignSettings settings w).heap q).isDisableDirectFlip = (w.heap q).isDisableDirectFlip
    ∧ ((assignSettings settings w).heap q).isBreakpointMode = (w.heap q).isBreakpointMode
    ∧ ((assignSettings settings w).heap q).isDrawCursor = (w.heap q).isDrawCursor := by
  unfold assignSettings
  cases hs : w.app._settings with
  | none =>
    by_cases hq : q = settings
    · subst hq
      simp [addRef]
    · simp [addRef, Function.update, hq]
  | some old =>
    by_cases hq : q = settings
    · subst hq
      by_cases ho : q = old
      · subst ho
        simp [addRef, release]
      · simp [addRef, release, Function.update, ho]
    · by_cases ho : q = old
      · subst ho
        simp [addRef, release, Function.update, hq]
      · simp [addRef, release, Function.update, hq, ho]

/-- What the prelude of `Run` leaves: the source window and the settings reference
are stored, the rest of the orchestrator and the windows are untouched, and the
log has the exclusive-fullscreen hack if the settings ask for it. -/
theorem runPrelude_facts (hwndSrc settings : Nat) (w : World) :
    (runPrelude hwndSrc settings w).app._hwndSrc = hwndSrc
    ∧ (runPrelude hwndSrc settings w).app._settings = some settings
    ∧ (runPrelude hwndSrc settings w).app._hostWndRect = w.app._hostWndRect
    ∧ (runPrelude hwndSrc settings w).app._wndProcHandlers = w.app._wndProcHandlers
    ∧ (runPrelude hwndSrc settings w).windows = w.windows
    ∧ (runPrelude hwndSrc settings w).heap = (assignSettings settings w).heap
    ∧ (runPrelude hwndSrc settings w).events = w.events ++
        (if (w.heap settings).isSimulateExclusiveFullscreen then [Event.exclModeHack] else []) := by
  have hf := (assignSettings_flags settings settings w).2.2.1
  unfold runPrelude
  simp only [hf]
  by_cases hx : (w.heap settings).isSimulateExclusiveFullscreen = true
  · simp [hx, World.emit, assignSettings]
  · simp [hx, World.emit, assignSettings]

/-- `_CreateHostWnd` succeeds when no host window exists, the placement succeeds and
`CreateWindowEx` returns a window: the window is live and stored in `_hwndHost`. -/
theorem CreateHostWnd_ok (env : Env) (w : World) (p : Nat)
    (hs : w.app._settings = some p)
    (hnohost : w.windows.any (fun e => decide (e.2 = WndClass.host)) = false)
    (hrect : (CalcHostWndRect env w.app._hwndSrc (w.heap p).multiMonitorUsage
      w.app._hostWndRect).1 = true)
    (hcreate : env.createHostWindow ≠ 0) :
    ∃ w3, _CreateHostWnd env w = some (true, w3)
      ∧ w3.app._hwndHost = env.createHostWindow
      ∧ w3.app._settings = some p
      ∧ w3.app._wndProcHandlers = w.app._wndProcHandlers
      ∧ w3.heap = w.heap
      ∧ w3.windows = (env.createHostWindow, WndClass.host) :: w.windows
      ∧ w3.events = w.events ++
          [Event.createWindow WndClass.host (!(w.heap p).isBreakpointMode)
              env.createHostWindow,
           Event.setLayeredWindowAttributes env.createHostWindow
            (if (w.heap p).isDisableDirectFlip then 254 else 255)] := by
  have hso : w.settingsObj = some (w.heap p) := by simp [World.settingsObj, hs]
  have hrun : ∃ w3, _CreateHostWnd env w = some (true, w3)
      ∧ w3 = { w with
          app := { w.app with
            _hostWndRect := (CalcHostWndRect env w.app._hwndSrc (w.heap p).multiMonitorUsage
              w.app._hostWndRect).2,
            _hwndHost := env.createHostWindow },
          windows := (env.createHostWindow, WndClass.host) :: w.windows,
          events := w.events ++
            [Event.createWindow WndClass.host (!(w.heap p).isBreakpointMode)
              env.createHostWindow,
             Event.setLayeredWindowAttributes env.createHostWindow
              (if (w.heap p).isDisableDirectFlip then 254 else 255)] } := by
    simp [_CreateHostWnd, hso, hnohost, hrect, hcreate]
  obtain ⟨w3, h3, heq⟩ := hrun
  subst heq
  exact ⟨_, h3, rfl, hs, rfl, rfl, rfl, rfl⟩

/-- When `step` is the step that fails, the part of `Run` after host-window creation
makes the `Initialize()` calls up to that step and goes to
`Stop(); _RunMessageLoop(); return false;` with windows, handles and handlers as
they were. -/
theorem initAfterHostWnd_fails (env : Env) (settings : Nat) (batches : List (List LoopInput))
    (w3 : World) (step : InitStep)
    (hs : w3.app._settings = some settings)
    (hfail : failsAt env (w3.heap settings).captureMode step = true) :
    ∃ wk, initAfterHostWnd env batches w3 = drainAndReturn env true batches wk
      ∧ wk.app._hwndHost = w3.app._hwndHost
      ∧ wk.app._wndProcHandlers = w3.app._wndProcHandlers
      ∧ wk.windows = w3.windows
      ∧ wk.events = w3.events ++ initEventsUpTo (w3.heap settings).captureMode step := by
  cases step with
  | deviceContext =>
    have hdev : env.deviceResourcesInitialize = false := by simpa [failsAt] using hfail
    apply Exists.intro
    apply And.intro
    · simp only [initAfterHostWnd, hdev, if_true]
      rfl
    · simp [initEventsUpTo, hdev]
  | frameSource =>
    have hdev : env.deviceResourcesInitialize = true := by
      simp [failsAt] at hfail
      exact hfail.1
    cases hmode : (w3.heap settings).captureMode with
    | unknown raw =>
      apply Exists.intro
      apply And.intro
      · simp only [initAfterHostWnd, hdev, _InitFrameSource, World.settingsObj, hs,
          Option.map_some', hmode]
        rfl
      · simp [initEventsUpTo, hdev, CaptureMode.isUnknown]
    | GraphicsCapture =>
      have hfs : env.frameSourceInitialize = false := by
        simpa [failsAt, hmode, hdev, CaptureMode.isUnknown] using hfail
      apply Exists.intro
      apply And.intro
      · simp only [initAfterHostWnd, hdev, _InitFrameSource, World.settingsObj, hs,
          Option.map_some', hmode, hfs]
        rfl
      · simp [initEventsUpTo, hdev, hfs, CaptureMode.isUnknown]
    | DesktopDuplication =>
      have hfs : env.frameSourceInitialize = false := by
        simpa [failsAt, hmode, hdev, CaptureMode.isUnknown] using hfail
      apply Exists.intro
      apply And.intro
      · simp only [initAfterHostWnd, hdev, _InitFrameSource, World.settingsObj, hs,
          Option.map_some', hmode, hfs]
        rfl
      · simp [initEventsUpTo, hdev, hfs, CaptureMode.isUnknown]
    | GDI =>
      have hfs : env.frameSourceInitialize = false := by
        simpa [failsAt, hmode, hdev, CaptureMode.isUnknown] using hfail
      apply Exists.intro
      apply And.intro
      · simp only [initAfterHostWnd, hdev, _InitFrameSource, World.settingsObj, hs,
          Option.map_some', hmode, hfs]
        rfl
      · simp [initEventsUpTo, hdev, hfs, CaptureMode.isUnknown]
    | DwmSharedSurface =>
      have hfs : env.frameSourceInitialize = false := by
        simpa [failsAt, hmode, hdev, CaptureMode.isUnknown] using hfail
      apply Exists.intro
      apply And.intro
      · simp only [initAfterHostWnd, hdev, _InitFrameSource, World.settingsObj, hs,
          Option.map_some', hmode, hfs]
        rfl
      · simp [initEventsUpTo, hdev, hfs, CaptureMode.isUnknown]
  | effectRenderer =>
    have hall : env.deviceResourcesInitialize = true
        ∧ (w3.heap settings).captureMode.isUnknown = false
        ∧ env.frameSourceInitialize = true ∧ env.rendererInitialize = false := by
      simpa [failsAt, and_assoc] using hfail
    obtain ⟨hdev, hkn, hfs, hrn⟩ := hall
    cases hmode : (w3.heap settings).captureMode with
    | unknown raw => simp [hmode, CaptureMode.isUnknown] at hkn
    | GraphicsCapture =>
      apply Exists.intro
      apply And.intro
      · simp only [initAfterHostWnd, hdev, _InitFrameSource, World.settingsObj, hs,
          Option.map_some', hmode, hfs, hrn]
        rfl
      · simp [initEventsUpTo, hdev, hfs, hrn, CaptureMode.isUnknown]
    | DesktopDuplication =>
      apply Exists.intro
      apply And.intro
      · simp only [initAfterHostWnd, hdev, _InitFrameSource, World.settingsObj, hs,
          Option.map_some', hmode, hfs, hrn]
        rfl
      · simp [initEventsUpTo, hdev, hfs, hrn, CaptureMode.isUnknown]
    | GDI =>
      apply Exists.intro
      apply And.intro
      · simp only [initAfterHostWnd, hdev, _InitFrameSource, World.settingsObj, hs,
          Option.map_some', hmode, hfs, hrn]
        rfl
      · simp [initEventsUpTo, hdev, hfs, hrn, CaptureMode.isUnknown]
    | DwmSharedSurface =>
      apply Exists.intro
      apply And.intro
      · simp only [initAfterHostWnd, hdev, _InitFrameSource, World.settingsObj, hs,
          Option.map_some', hmode, hfs, hrn]
        rfl
      · simp [initEventsUpTo, hdev, hfs, hrn, CaptureMode.isUnknown]
  | cursorOverlay =>
    have hall : env.deviceResourcesInitialize = true
        ∧ (w3.heap settings).captureMode.isUnknown = false
        ∧ env.frameSourceInitialize = true ∧ env.rendererInitialize = true
        ∧ env.cursorManagerInitialize = false := by
      simpa [failsAt, and_assoc] using hfail
    obtain ⟨hdev, hkn, hfs, hrn, hcm⟩ := hall
    cases hmode : (w3.heap settings).captureMode with
    | unknown raw => simp [hmode, CaptureMode.isUnknown] at hkn
    | GraphicsCapture =>
      apply Exists.intro
      apply And.intro
      · simp only [initAfterHostWnd, hdev, _InitFrameSource, World.settingsObj, hs,
          Option.map_some', hmode, hfs, hrn, hcm]
        rfl
      · simp [initEventsUpTo, hdev, hfs, hrn, hcm, CaptureMode.isUnknown]
    | DesktopDuplication =>
      apply Exists.intro
      apply And.intro
      · simp only [initAfterHostWnd, hdev, _InitFrameSource, World.settingsObj, hs,
          Option.map_some', hmode, hfs, hrn, hcm]
        rfl
      · simp [initEventsUpTo, hdev, hfs, hrn, hcm, CaptureMode.isUnknown]
    | GDI =>
      apply Exists.intro
      apply And.intro
      · simp only [initAfterHostWnd, hdev, _InitFrameSource, World.settingsObj, hs,
          Option.map_some', hmode, hfs, hrn, hcm]
        rfl
      · simp [initEventsUpTo, hdev, hfs, hrn, hcm, CaptureMode.isUnknown]
    | DwmSharedSurface =>
      apply Exists.intro
      apply And.intro
      · simp only [initAfterHostWnd, hdev, _InitFrameSource, World.settingsObj, hs,
          Option.map_some', hmode, hfs, hrn, hcm]
        rfl
      · simp [initEventsUpTo, hdev, hfs, hrn, hcm, CaptureMode.isUnknown]

/-- The tail `Stop(); _RunMessageLoop(); return false;` with the host window live and
no handler intercepting `WM_DESTROY`: the host window is destroyed, the quit
message is posted, the first message pump reaches `_OnQuit`, and `false` is
returned. -/
theorem drainAndReturn_after_failure (env : Env) (wk : World) (h : Nat)
    (batch : List LoopInput) (rest : List (List LoopInput))
    (hhost : wk.app._hwndHost = h) (hne : h ≠ 0)
    (hlive : wk.windows.lookup h = some WndClass.host)
    (hpass : ∀ e ∈ wk.app._wndProcHandlers, e.2 h WM_DESTROY 0 0 = none) :
    ∃ w' drained, drainAndReturn env true (batch :: rest) wk = RunResult.returned false w'
      ∧ w'.events = wk.events ++ drained
      ∧ (∀ e ∈ drained, e.isDrainEvent = true)
      ∧ Event.destroyWindow h ∈ drained ∧ Event.postQuitMessage ∈ drained
      ∧ w'.windows.lookup h = none
      ∧ w'.app._hKeyboardHook = 0 ∧ w'.app._cursorManager = none ∧ w'.app._renderer = none
      ∧ w'.app._frameSource = none ∧ w'.app._deviceResources = none ∧ w'.app._settings = none
      ∧ w'.app._wndProcHandlers = [] ∧ w'.app._nextWndProcHandlerID = 1 := by
  obtain ⟨e1, hd1, hq, hm1, hm2, hl1⟩ := Stop_posts_quit env wk h hhost hne hlive hpass
  obtain ⟨w0, e2, hp, ha, hl, hev, hd2⟩ := pumpMessages_quits env batch (Stop env wk) hq
  have hf := OnQuit_fields w0
  have hrun : drainAndReturn env true (batch :: rest) wk
      = RunResult.returned false (_OnQuit w0) := by
    simp only [drainAndReturn, if_true, _RunMessageLoop, hp]
  have hunhook : ∀ e ∈ (if w0.app._hKeyboardHook ≠ 0
      then [Event.unhookWindowsHookEx w0.app._hKeyboardHook] else []),
      e.isDrainEvent = true := by
    intro e he
    by_cases hk : w0.app._hKeyboardHook ≠ 0
    · rw [if_pos hk] at he
      simp at he
      rw [he]
      rfl
    · rw [if_neg hk] at he
      cases he
  refine ⟨_OnQuit w0, e1 ++ e2 ++ (if w0.app._hKeyboardHook ≠ 0
      then [Event.unhookWindowsHookEx w0.app._hKeyboardHook] else []), hrun, ?_, ?_, ?_, ?_, ?_,
      hf.1, hf.2.1, hf.2.2.1, hf.2.2.2.1, hf.2.2.2.2.1, hf.2.2.2.2.2.1, hf.2.2.2.2.2.2.1,
      hf.2.2.2.2.2.2.2.1⟩
  · rw [OnQuit_events, hev, hd1.2.2.2.1]
    simp only [List.append_assoc]
  · intro e he
    rcases List.mem_append.mp he with he | he
    · rcases List.mem_append.mp he with he | he
      · exact hd1.2.2.2.2 e he
      · exact hd2 e he
    · exact hunhook e he
  · exact List.mem_append_left _ (List.mem_append_left _ hm1)
  · exact List.mem_append_left _ (List.mem_append_left _ hm2)
  · rw [(OnQuit_frame w0).2.1]
    exact hl h hl1

/-- C5. Host-window creation has succeeded (no host window existed, the placement
succeeded, `CreateWindowEx` returned a window) and no registered handler
intercepts `WM_DESTROY`. If `step` (Device Context, Frame Source, Effect Renderer
or Cursor Overlay) is the step that fails, then `Run`, followed for at least one
loop iteration, returns `false`, and its log is: the host-window creation, the
`Initialize()` calls up to the failing step and none after it, then only drain
events (no render pass, no later initialization), among them `DestroyWindow` on
the host window (from `Stop()`) and the quit message it posts. The teardown has
run: the host window is gone, the hook is null, all references are empty, the
handler registry is empty and the next id is 1. -/
theorem failed_init_step_drains_to_teardown (env : Env) (hwndSrc settings : Nat)
    (batch : List LoopInput) (rest : List (List LoopInput)) (w : World) (step : InitStep)
    (hnohost : w.windows.any (fun e => decide (e.2 = WndClass.host)) = false)
    (hrect : (CalcHostWndRect env hwndSrc (w.heap settings).multiMonitorUsage
      w.app._hostWndRect).1 = true)
    (hcreate : env.createHostWindow ≠ 0)
    (hpass : ∀ e ∈ w.app._wndProcHandlers, e.2 env.createHostWindow WM_DESTROY 0 0 = none)
    (hfail : failsAt env (w.heap settings).captureMode step = true) :
    ∃ w' drained, Run env hwndSrc settings (batch :: rest) w = RunResult.returned false w'
      ∧ w'.events = w.events
          ++ (if (w.heap settings).isSimulateExclusiveFullscreen then [Event.exclModeHack]
              else [])
          ++ [Event.createWindow WndClass.host (!(w.heap settings).isBreakpointMode)
                env.createHostWindow,
              Event.setLayeredWindowAttributes env.createHostWindow
                (if (w.heap settings).isDisableDirectFlip then 254 else 255)]
          ++ initEventsUpTo (w.heap settings).captureMode step
          ++ drained
      ∧ (∀ e ∈ drained, e.isDrainEvent = true)
      ∧ Event.destroyWindow env.createHostWindow ∈ drained
      ∧ Event.postQuitMessage ∈ drained
      ∧ w'.windows.lookup env.createHostWindow = none
      ∧ w'.app._hKeyboardHook = 0 ∧ w'.app._cursorManager = none ∧ w'.app._renderer = none
      ∧ w'.app._frameSource = none ∧ w'.app._deviceResources = none ∧ w'.app._settings = none
      ∧ w'.app._wndProcHandlers = [] ∧ w'.app._nextWndProcHandlerID = 1 := by
  obtain ⟨hp1, hp2, hp3, hp4, hp5, hp6, hp7⟩ := runPrelude_facts hwndSrc settings w
  have hflags := assignSettings_flags settings settings w
  have hheap : ∀ q, (runPrelude hwndSrc settings w).heap q = (assignSettings settings w).heap q :=
    fun q => by rw [hp6]
  obtain ⟨w3, hc, hc1, hc2, hc3, hc4, hc5, hc6⟩ := CreateHostWnd_ok env
    (runPrelude hwndSrc settings w) settings hp2 (by rw [hp5]; exact hnohost)
    (by rw [hp1, hp3, hheap, hflags.2.1]; exact hrect) hcreate
  have hmode : (w3.heap settings).captureMode = (w.heap settings).captureMode := by
    rw [hc4, hheap, hflags.1]
  obtain ⟨wk, hk, hk1, hk2, hk3, hk4⟩ := initAfterHostWnd_fails env settings (batch :: rest)
    w3 step hc2 (by rw [hmode]; exact hfail)
  obtain ⟨w', drained, hrun, hev, hdr, hm1, hm2, hl, hidle⟩ :=
    drainAndReturn_after_failure env wk env.createHostWindow batch rest
      (by rw [hk1, hc1]) hcreate
      (by rw [hk3, hc5]; simp [List.lookup])
      (by rw [hk2, hc3, hp4]; exact hpass)
  refine ⟨w', drained, ?_, ?_, hdr, hm1, hm2, hl, hidle⟩
  · simp only [Run, hc, hk, hrun]
  · rw [hev, hk4, hc6, hp7, hmode, hheap, hflags.2.2.2.1, hflags.2.2.2.2.1]

/-! ### The theorems at concrete inputs -/

/-- C1 at a concrete input: three handlers registered after a teardown, the second
answers 5; the message goes to the third, then the second, and 5 is returned. -/
theorem dispatch_in_reverse_registration_order_witness :
    (teardownWorld.app._nextWndProcHandlerID = 1 ∧ teardownWorld.app._wndProcHandlers = []
      ∧ [passHandler, answerHandler 5, passHandler].length < UINT_RANGE)
    ∧ (registerAll [passHandler, answerHandler 5, passHandler] teardownWorld.app).1
        = List.range' 1 [passHandler, answerHandler 5, passHandler].length
    ∧ offerInReverseRegistrationOrder [passHandler, answerHandler 5, passHandler] 100 1024 0 0
        = ([3, 2], some 5) :=
  ⟨⟨by decide, rfl, by decide⟩,
   (dispatch_in_reverse_registration_order (sampleEnv 100 200) teardownWorld
      [passHandler, answerHandler 5, passHandler] 100 1024 0 0
      (by decide) rfl (by decide)).1,
   by decide⟩

/-- C2 at a concrete input: register, register, unregister 1, register after a
teardown returns the ids 1, 2, 3. -/
theorem ids_distinct_up_to_wrap_witness :
    (teardownWorld.app._nextWndProcHandlerID = 1 ∧ teardownWorld.app._wndProcHandlers = []
      ∧ countRegister [RegistryOp.register passHandler, RegistryOp.register passHandler,
          RegistryOp.unregister 1, RegistryOp.register passHandler] ≤ UINT_RANGE)
    ∧ (runOps [RegistryOp.register passHandler, RegistryOp.register passHandler,
          RegistryOp.unregister 1, RegistryOp.register passHandler] teardownWorld.app).1.Nodup
    ∧ (runOps [RegistryOp.register passHandler, RegistryOp.register passHandler,
          RegistryOp.unregister 1, RegistryOp.register passHandler] teardownWorld.app).1
        = [1, 2, 3] :=
  ⟨⟨by decide, rfl, by decide⟩,
   (ids_distinct_up_to_wrap teardownWorld.app
      [RegistryOp.register passHandler, RegistryOp.register passHandler,
       RegistryOp.unregister 1, RegistryOp.register passHandler]
      (by decide) rfl (by decide)).2.1,
   by decide⟩

/-- C3 at a concrete input: the source window straddles the first two of three
monitors, and the result is the rectangle that spans those two. -/
theorem intersected_is_union_of_overlapping_witness :
    (tripleMonitorEnv.getWindowFrameRect 7 = some ⟨1500, 100, 2500, 700⟩
      ∧ tripleMonitorEnv.enumDisplayMonitors
          = some [⟨0, 0, 1920, 1080⟩, ⟨1920, 0, 3840, 1080⟩, ⟨-1920, 0, 0, 1080⟩]
      ∧ ∀ m ∈ [(⟨0, 0, 1920, 1080⟩ : RECT), ⟨1920, 0, 3840, 1080⟩, ⟨-1920, 0, 0, 1080⟩],
          validMonitorRect m)
    ∧ (CalcHostWndRect tripleMonitorEnv 7 MultiMonitorUsage.Intersected ⟨0, 0, 0, 0⟩).2
        = boundingRect
            ([(⟨0, 0, 1920, 1080⟩ : RECT), ⟨1920, 0, 3840, 1080⟩, ⟨-1920, 0, 0, 1080⟩].filter
              (tripleMonitorEnv.checkOverlap ⟨1500, 100, 2500, 700⟩))
    ∧ CalcHostWndRect tripleMonitorEnv 7 MultiMonitorUsage.Intersected ⟨0, 0, 0, 0⟩
        = (true, ⟨0, 0, 3840, 1080⟩) :=
  ⟨⟨rfl, rfl, by decide⟩,
   (intersected_is_union_of_overlapping tripleMonitorEnv 7 ⟨0, 0, 0, 0⟩
      ⟨1500, 100, 2500, 700⟩
      [⟨0, 0, 1920, 1080⟩, ⟨1920, 0, 3840, 1080⟩, ⟨-1920, 0, 0, 1080⟩]
      rfl rfl (by decide)).1,
   by decide⟩

/-- C5 at a concrete input: the frame source fails in the first run of the sample
world; `Run` returns `false` with the teardown done. -/
theorem failed_init_step_drains_to_teardown_witness :
    ((World.initial (fun _ => sampleSettings true)).windows.any
        (fun e => decide (e.2 = WndClass.host)) = false
      ∧ (CalcHostWndRect failingFrameSourceEnv 7
          ((World.initial (fun _ => sampleSettings true)).heap 1).multiMonitorUsage
          (World.initial (fun _ => sampleSettings true)).app._hostWndRect).1 = true
      ∧ failingFrameSourceEnv.createHostWindow ≠ 0
      ∧ failsAt failingFrameSourceEnv
          ((World.initial (fun _ => sampleSettings true)).heap 1).captureMode
          InitStep.frameSource = true)
    ∧ ∃ w', Run failingFrameSourceEnv 7 1 [[]] (World.initial (fun _ => sampleSettings true))
          = RunResult.returned false w'
        ∧ w'.app._settings = none ∧ w'.app._nextWndProcHandlerID = 1 := by
  refine ⟨⟨by decide, by decide, by decide, by decide⟩, ?_⟩
  obtain ⟨w', _, hrun, _, _, _, _, _, _, _, _, _, _, hs, _, hid⟩ :=
    failed_init_step_drains_to_teardown failingFrameSourceEnv 7 1 [] []
      (World.initial (fun _ => sampleSettings true)) InitStep.frameSource
      (by decide) (by decide) (by decide) (fun e he => by cases he) (by decide)
  exact ⟨w', hrun, hs, hid⟩

/-- C7 (amended) at a concrete input: in the written-out running world the caller
holds a second reference, so the restoration after the teardown writes. -/
theorem restore_after_teardown_writes_iff_alive_witness :
    (cursorWorld.app._settings = some 1 ∧ (cursorWorld.heap 1).isDrawCursor = true
      ∧ cursorWorld.app._renderer = some { renderCalls := 1 }
      ∧ cursorWorld.pendingRestores = [])
    ∧ ∃ w1, LowLevelKeyboardProc HC_ACTION WM_KEYDOWN VK_SNAPSHOT cursorWorld = some w1
        ∧ ((resumeRestore (_OnQuit w1)).heap 1).isDrawCursor = true := by
  refine ⟨⟨rfl, rfl, rfl, rfl⟩, ?_⟩
  obtain ⟨w1, h1, _, _, _, hw⟩ :=
    restore_after_teardown_writes_iff_alive cursorWorld 1 { renderCalls := 1 } rfl rfl rfl rfl
  exact ⟨w1, h1, (hw (by decide)).2⟩

/-- C8 at a concrete input: print-screen pressed in the written-out running world. -/
theorem snapshot_trigger_is_idempotent_witness :
    (cursorWorld.app._settings = some 1 ∧ (cursorWorld.heap 1).isDrawCursor = true
      ∧ cursorWorld.app._renderer = some { renderCalls := 1 })
    ∧ ∃ w1, LowLevelKeyboardProc HC_ACTION WM_KEYDOWN VK_SNAPSHOT cursorWorld = some w1
        ∧ w1.events = [Event.setIsDrawCursor 1 false, Event.render true, Event.callNextHookEx]
        ∧ w1.pendingRestores = [1]
        ∧ LowLevelKeyboardProc HC_ACTION WM_KEYDOWN VK_SNAPSHOT w1
            = some { w1 with events := w1.events ++ [Event.callNextHookEx] } := by
  refine ⟨⟨rfl, rfl, rfl⟩, ?_⟩
  obtain ⟨w1, h1, _, hev, hp, h2, _⟩ :=
    snapshot_trigger_is_idempotent cursorWorld 1 { renderCalls := 1 } rfl rfl rfl
  exact ⟨w1, h1, hev, hp, h2⟩

end Magpie
